import Mathlib

/-!
# rtr_moveit: roadmap session manager and occupancy voxelizer

A shallow embedding of `rtr_planner_interface.cpp` and `occupancy_handler.cpp`.

Conventions of the embedding
* joint values and lengths (`float`, `double`) are exact rationals;
* the nearest-configuration search is given a second time in floating point
  (`getConfigDistanceFloat`, `findClosestConfigIdFloat`): a value is a finite number, an
  infinity or a NaN, and the subtraction, absolute value and addition of the machine, with
  their rounding and overflow, are a parameter (`FloatArithmetic`);
* a `float` that received `DBL_MAX` is the value `⊤` of `WithTop ℚ`
  (the conversion of `DBL_MAX` to `float` is +infinity);
* machine integers are naturals or integers, reduced modulo `2 ^ w` at every
  place where the source narrows a value to `w` bits;
* loops that may run forever carry a fuel argument and return `none` when the
  fuel is used up;
* rigid transforms are a rational matrix with a translation; translations given to
  `moveObject` act in the world frame, as MoveIt applies them.
-/

namespace rtr_moveit

/-! ## Configurations and the joint-space distance -/

/-- An `rtr::Config`: the ordered joint values of one roadmap state. -/
abbrev Config := List ℚ

/-- Number of values of `unsigned int`. -/
abbrev UINT_RANGE : Nat := 2 ^ 32

/-- Number of values of `uint16_t`. -/
abbrev UINT16_RANGE : Nat := 2 ^ 16

/-- Number of values of `uint64_t`. -/
abbrev UINT64_RANGE : Nat := 2 ^ 64

/-- The accumulation loop of `getConfigDistance`:
`for (i = 0; i < first.size(); i++) distance += std::abs(first[i] - second[i]);`
run on two configurations of the same length. -/
def sumAbsDifferences : Config → Config → ℚ → ℚ
  | a :: first, b :: second, distance => sumAbsDifferences first second (distance + |a - b|)
  | _, _, distance => distance

/-- The function `getConfigDistance`: `DBL_MAX` (as a `float`, i.e. `⊤`) when the
sizes differ, otherwise the sum of the absolute joint differences. -/
def getConfigDistance (first second : Config) : WithTop ℚ :=
  if first.length ≠ second.length then ⊤
  else ((sumAbsDifferences first second 0 : ℚ) : WithTop ℚ)

/-- The loop of `findClosestConfigId`, with the loop counter `i` (a `std::size_t`)
and the two locals `min_distance` and `result_id`; the assignment
`result_id = i` narrows the counter to `unsigned int`. -/
def findClosestLoop (config : Config) : List Config → Nat → WithTop ℚ → Nat → WithTop ℚ × Nat
  | [], _, min_distance, result_id => (min_distance, result_id)
  | c :: configs, i, min_distance, result_id =>
      if getConfigDistance config c < min_distance then
        findClosestLoop config configs (i + 1) (getConfigDistance config c) (i % UINT_RANGE)
      else
        findClosestLoop config configs (i + 1) min_distance result_id

/-- The function `findClosestConfigId`: `result_id` starts as `(unsigned int) -1`
and `min_distance` as `DBL_MAX`. -/
def findClosestConfigId (config : Config) (configs : List Config) : Nat :=
  (findClosestLoop config configs 0 ⊤ (UINT_RANGE - 1)).2

/-! ## The nearest-configuration search in floating point -/

/-- The `RoadmapFiles` of a roadmap: the path handed to the loaders. -/
structure RoadmapFiles where
  occupancy : String
deriving DecidableEq, Repr

/-- The fields of `RoadmapSpecification` that `prepareRoadmap` reads. -/
structure RoadmapSpecification where
  roadmap_id : String
  files : RoadmapFiles
deriving DecidableEq, Repr

/-- An `rtr::Voxel`: three grid coordinates. -/
structure Voxel where
  x : Nat
  y : Nat
  z : Nat
deriving DecidableEq, Repr

/-- The enumeration `RapidPlanGoal::Type`. -/
inductive GoalType where
  | TRANSFORM
  | JOINT_STATE
  | STATE_IDS
deriving DecidableEq, Repr

/-- A `RapidPlanGoal`; transform, tolerance and weights are arrays of numbers. -/
structure RapidPlanGoal where
  type : GoalType
  transform : List ℚ
  tolerance : List ℚ
  weights : List ℚ
  joint_state : Config
  state_ids : List Nat
deriving DecidableEq

/-- One call made on the path planner (`planner_`) or on the hardware interface
(`rapidplan_interface_`), with its arguments and the status it returned. -/
inductive EngineCall where
  | LoadRoadmap (path : String) (ok : Bool)
  | WriteRoadmap (path : String) (ok : Bool) (roadmap_index : Nat)
  | CheckScene (occupancy_voxels : List Voxel) (roadmap_index : Nat) (ok : Bool)
  | FindPathToPose (start_id : Nat) (tool_pose : List ℚ) (collisions : List Nat)
      (tolerance weights : List ℚ) (status : Int)
  | FindPathToIds (start_id : Nat) (state_ids : List Nat) (collisions : List Nat) (status : Int)
deriving DecidableEq

/-- Whether a call is the `LoadRoadmap` file load. -/
def EngineCall.isLoadRoadmap : EngineCall → Bool
  | .LoadRoadmap _ _ => true
  | _ => false

/-- Whether a call is one of the two `FindPath` overloads. -/
def EngineCall.isFindPath : EngineCall → Bool
  | .FindPathToPose _ _ _ _ _ _ => true
  | .FindPathToIds _ _ _ _ => true
  | _ => false

/-- The status a `FindPath` call returned (0 for the other calls). -/
def EngineCall.findPathStatus : EngineCall → Int
  | .FindPathToPose _ _ _ _ _ status => status
  | .FindPathToIds _ _ _ status => status
  | _ => 0

/-- What a `FindPath` call hands back: the status, the two id deques and the
planner afterwards. -/
structure FindPathResult (σ : Type) where
  status : Int
  waypoints : List Nat
  edges : List Nat
  planner : σ

/-- The external RapidPlan components as seen from this file: the path planner,
the hardware interface, the conversion of `rtr_conversions.h`, and the
compile-time switch `RAPID_PLAN_INTERFACE_ENABLED`. Their state is `σ`. -/
structure Engine (σ : Type) where
  RAPID_PLAN_INTERFACE_ENABLED : Bool
  LoadRoadmap : σ → String → Bool × σ
  WriteRoadmap : σ → String → Bool × Nat × σ
  CheckScene : σ → List Voxel → Nat → Bool × List Nat × σ
  GetNumEdges : σ → Nat
  SetEdgeCost : σ → σ
  GetConfigs : σ → List Config
  FindPathToPose : σ → Nat → List ℚ → List Nat → List ℚ → List ℚ → List Nat → List Nat →
    FindPathResult σ
  FindPathToIds : σ → Nat → List Nat → List Nat → List Nat → List Nat → FindPathResult σ
  rtrTransformToRtrToolPose : List ℚ → List ℚ

/-- The members of `RTRPlannerInterface`: the two maps, the loaded roadmap id, the
external components, and the trace of the calls made on them. -/
structure RTRPlannerInterface (σ : Type) where
  roadmaps_ : List (String × RoadmapSpecification)
  roadmap_indices_ : List (Nat × String)
  loaded_roadmap_ : String
  planner_ : σ
  calls : List EngineCall

/-- The map assignment `m[k] = v` of a `std::map` kept as a list sorted by key. -/
def mapAssign {α : Type} : List (Nat × α) → Nat → α → List (Nat × α)
  | [], k, v => [(k, v)]
  | (k0, v0) :: m, k, v =>
      if k = k0 then (k, v) :: m
      else if k < k0 then (k, v) :: (k0, v0) :: m
      else (k0, v0) :: mapAssign m k v

/-- Modelled from the spec: `findRoadmapIndex` is declared in
`rtr_planner_interface.h`, which is not among the sources; it returns the index
recorded for a roadmap id in `roadmap_indices_`, if any. -/
def findRoadmapIndex (roadmap_indices_ : List (Nat × String)) (roadmap_id : String) : Option Nat :=
  (roadmap_indices_.find? (fun entry => entry.2 == roadmap_id)).map Prod.fst

/-- The first statement of `prepareRoadmap`: the specification is stored under its
id unless the id is already a key of `roadmaps_`. -/
def saveRoadmap (roadmaps_ : List (String × RoadmapSpecification))
    (roadmap_spec : RoadmapSpecification) : List (String × RoadmapSpecification) :=
  if (roadmaps_.lookup roadmap_spec.roadmap_id).isNone then
    roadmaps_ ++ [(roadmap_spec.roadmap_id, roadmap_spec)]
  else roadmaps_

/-- The second half of `prepareRoadmap`, from `findRoadmapIndex` on. -/
def assignRoadmapIndex {σ : Type} (E : Engine σ) (self : RTRPlannerInterface σ)
    (roadmap_id : String) (files : RoadmapFiles) : Option Nat × RTRPlannerInterface σ :=
  match findRoadmapIndex self.roadmap_indices_ roadmap_id with
  | some roadmap_index => (some roadmap_index, self)
  | none =>
    if E.RAPID_PLAN_INTERFACE_ENABLED then
      let written := E.WriteRoadmap self.planner_ files.occupancy
      let roadmap_index := written.2.1 % UINT16_RANGE
      let self1 := { self with
        planner_ := written.2.2
        calls := self.calls ++ [EngineCall.WriteRoadmap files.occupancy written.1 roadmap_index] }
      if written.1 then
        (some roadmap_index,
          { self1 with roadmap_indices_ := mapAssign self1.roadmap_indices_ roadmap_index roadmap_id })
      else (none, self1)
    else
      let roadmap_index := self.roadmap_indices_.length % UINT16_RANGE
      (some roadmap_index,
        { self with roadmap_indices_ := mapAssign self.roadmap_indices_ roadmap_index roadmap_id })

/-- The method `prepareRoadmap`: `none` for `return false`, otherwise the value left
in `roadmap_index`. -/
def prepareRoadmap {σ : Type} (E : Engine σ) (self : RTRPlannerInterface σ)
    (roadmap_spec : RoadmapSpecification) : Option Nat × RTRPlannerInterface σ :=
  let roadmap_id := roadmap_spec.roadmap_id
  let self1 := { self with roadmaps_ := saveRoadmap self.roadmaps_ roadmap_spec }
  let files := ((self1.roadmaps_.lookup roadmap_id).getD roadmap_spec).files
  if roadmap_id ≠ self1.loaded_roadmap_ then
    let loaded := E.LoadRoadmap self1.planner_ files.occupancy
    let self2 := { self1 with
      planner_ := loaded.2
      calls := self1.calls ++ [EngineCall.LoadRoadmap files.occupancy loaded.1] }
    if loaded.1 then assignRoadmapIndex E self2 roadmap_id files
    else (none, self2)
  else assignRoadmapIndex E self1 roadmap_id files

/-- What the seven-argument `solve` returns and leaves in its reference arguments. -/
structure SolveResult (σ : Type) where
  success : Bool
  self : RTRPlannerInterface σ
  roadmap_states : List Config
  waypoints : List Nat
  edges : List Nat

/-- The tail of `solve`: the `FindPath` result is stored and `result == 0` returned. -/
def finishSolve {σ : Type} (self : RTRPlannerInterface σ) (call : EngineCall)
    (roadmap_states : List Config) (found : FindPathResult σ) : SolveResult σ :=
  { success := found.status == 0
    self := { self with planner_ := found.planner, calls := self.calls ++ [call] }
    roadmap_states := roadmap_states
    waypoints := found.waypoints
    edges := found.edges }

/-- The part of `solve` after the collision check: edge cost, configurations, start
vertex and the `switch` over the goal type (`JOINT_STATE` falls through to
`STATE_IDS`). -/
def searchPath {σ : Type} (E : Engine σ) (self : RTRPlannerInterface σ) (start_config : Config)
    (goal : RapidPlanGoal) (collisions : List Nat) (waypoints edges : List Nat) : SolveResult σ :=
  let self1 := { self with planner_ := E.SetEdgeCost self.planner_ }
  let roadmap_states := E.GetConfigs self1.planner_
  let start_id := findClosestConfigId start_config roadmap_states
  match goal.type with
  | GoalType.TRANSFORM =>
    let tool_pose := E.rtrTransformToRtrToolPose goal.transform
    let found := E.FindPathToPose self1.planner_ start_id tool_pose collisions goal.tolerance
      goal.weights waypoints edges
    finishSolve self1
      (EngineCall.FindPathToPose start_id tool_pose collisions goal.tolerance goal.weights
        found.status) roadmap_states found
  | GoalType.JOINT_STATE =>
    let state_ids := [findClosestConfigId goal.joint_state roadmap_states]
    let found := E.FindPathToIds self1.planner_ start_id state_ids collisions waypoints edges
    finishSolve self1 (EngineCall.FindPathToIds start_id state_ids collisions found.status)
      roadmap_states found
  | GoalType.STATE_IDS =>
    let found := E.FindPathToIds self1.planner_ start_id goal.state_ids collisions waypoints edges
    finishSolve self1 (EngineCall.FindPathToIds start_id goal.state_ids collisions found.status)
      roadmap_states found

/-- The seven-argument `solve` (the body under the mutex). -/
def solve {σ : Type} (E : Engine σ) (self : RTRPlannerInterface σ)
    (roadmap_spec : RoadmapSpecification) (start_config : Config) (goal : RapidPlanGoal)
    (occupancy_voxels : List Voxel) (roadmap_states : List Config) (waypoints edges : List Nat) :
    SolveResult σ :=
  match prepareRoadmap E self roadmap_spec with
  | (none, self1) =>
    { success := false, self := self1, roadmap_states := roadmap_states,
      waypoints := waypoints, edges := edges }
  | (some roadmap_index, self1) =>
    if E.RAPID_PLAN_INTERFACE_ENABLED then
      let checked := E.CheckScene self1.planner_ occupancy_voxels roadmap_index
      let self2 := { self1 with
        planner_ := checked.2.2
        calls := self1.calls ++ [EngineCall.CheckScene occupancy_voxels roadmap_index checked.1] }
      if checked.1 then
        searchPath E self2 start_config goal checked.2.1 waypoints edges
      else
        { success := false, self := self2, roadmap_states := roadmap_states,
          waypoints := waypoints, edges := edges }
    else
      searchPath E self1 start_config goal (List.replicate (E.GetNumEdges self1.planner_) 0)
        waypoints edges

/-- The results of a sequence of `prepareRoadmap` calls on one interface. -/
def prepareRoadmaps {σ : Type} (E : Engine σ) :
    RTRPlannerInterface σ → List RoadmapSpecification → List (Option Nat) × RTRPlannerInterface σ
  | self, [] => ([], self)
  | self, roadmap_spec :: rest =>
    let first := prepareRoadmap E self roadmap_spec
    let others := prepareRoadmaps E first.2 rest
    (first.1 :: others.1, others.2)

/-- A freshly constructed interface: empty maps, empty `loaded_roadmap_`. -/
def RTRPlannerInterface.new {σ : Type} (planner : σ) : RTRPlannerInterface σ :=
  { roadmaps_ := [], roadmap_indices_ := [], loaded_roadmap_ := "", planner_ := planner, calls := [] }

/-- A stand-in engine without state: every load and every write succeeds, the
scene check answers `accept`, the roadmap has the configurations `configs` and
no edges, and every search answers `status`. -/
def stubEngine (enabled accept : Bool) (configs : List Config) (status : Int) : Engine Unit :=
  { RAPID_PLAN_INTERFACE_ENABLED := enabled
    LoadRoadmap := fun _ _ => (true, ())
    WriteRoadmap := fun _ _ => (true, 0, ())
    CheckScene := fun _ _ _ => (accept, [], ())
    GetNumEdges := fun _ => 0
    SetEdgeCost := fun _ => ()
    GetConfigs := fun _ => configs
    FindPathToPose := fun _ _ _ _ _ _ waypoints edges =>
      { status := status, waypoints := waypoints, edges := edges, planner := () }
    FindPathToIds := fun _ _ _ _ waypoints edges =>
      { status := status, waypoints := waypoints, edges := edges, planner := () }
    rtrTransformToRtrToolPose := fun transform => transform }


/-! ## Occupancy handler -/

/-- The enumeration `OccupancyData::Type`. -/
inductive OccupancyDataType where
  | VOXELS
  | POINT_CLOUD
deriving DecidableEq, Repr

/-- A point cloud: its `header.stamp` (a `uint64_t`, microseconds in PCL) and a
name standing for its points. -/
structure PointCloud where
  stamp : Nat
  points : Nat
deriving DecidableEq, Repr

/-- The structure `OccupancyData`. -/
structure OccupancyData where
  type : OccupancyDataType
  point_cloud : Option PointCloud
  voxels : List Voxel
deriving DecidableEq, Repr

/-- The condition of the `if` in `fromPCL`:
`!shared_pcl_ptr_ || (ros::Time::now().toNSec() * 1000 - shared_pcl_ptr_->header.stamp > 100000)`
in `uint64_t` arithmetic; `now_nsec` is the value of `ros::Time::now().toNSec()`. -/
def fromPCL_needs_new_cloud (shared_pcl_ptr_ : Option PointCloud) (now_nsec : Nat) : Bool :=
  match shared_pcl_ptr_ with
  | none => true
  | some cloud =>
    decide (100000 < (((now_nsec * 1000 : Nat) : Int) - (cloud.stamp : Int)) % (UINT64_RANGE : Int))

/-- The method `pclCallback`: the received cloud replaces the cached one. -/
def pclCallback (cloud_pcl2 : PointCloud) : Option PointCloud × Bool :=
  (some cloud_pcl2, true)

/-- What `fromPCL` returns and leaves behind: the return value, the occupancy
data, the cached cloud, and whether it went through the wait for a new cloud. -/
structure FromPCLResult where
  result : Bool
  occupancy_data : OccupancyData
  shared_pcl_ptr_ : Option PointCloud
  waited : Bool
deriving DecidableEq, Repr

/-- The method `fromPCL`; `arriving` is the cloud the subscription delivers during
the wait. -/
def fromPCL (shared_pcl_ptr_ : Option PointCloud) (now_nsec : Nat) (arriving : PointCloud)
    (occupancy_data : OccupancyData) : FromPCLResult :=
  let waited := fromPCL_needs_new_cloud shared_pcl_ptr_ now_nsec
  let cached := if waited then (pclCallback arriving).1 else shared_pcl_ptr_
  { result := cached.isSome
    occupancy_data := { occupancy_data with type := OccupancyDataType.POINT_CLOUD, point_cloud := cached }
    shared_pcl_ptr_ := cached
    waited := waited }

/-- The fields of `RoadmapVolume` read by `fromPlanningScene`; the base frame and
the centre pose only fix where the volume lies in the scene. -/
structure RoadmapVolume where
  dimensions : ℚ × ℚ × ℚ
  voxel_dimension : ℚ

/-- Conversion of a floating-point value to `int`: the fractional part is
discarded (the value is assumed to fit an `int`). -/
def toInt (q : ℚ) : Int :=
  if 0 ≤ q then ⌊q⌋ else ⌈q⌉

/-- The state of the sweep in `fromPlanningScene`: the translation applied to the
test box since it was added, the flag `result.collision`, the voxel list, and the
box translations at which `checkWorldCollision` was called. -/
structure SweepState where
  moved : ℚ × ℚ × ℚ
  collision : Bool
  voxels : List Voxel
  queries : List (ℚ × ℚ × ℚ)

/-- The quantities fixed before the sweep starts, and the scene: `collides t` tells
whether the box, moved by `t` from where it was added, hits the scene. -/
structure Sweep where
  voxel_dimension : ℚ
  x_voxels : Int
  y_voxels : Int
  z_voxels : Int
  collides : ℚ × ℚ × ℚ → Bool

/-- The call `world.getWorld()->moveObject(box_id, t)` for a translation `t`. -/
def moveObject (t : ℚ × ℚ × ℚ) (s : SweepState) : SweepState :=
  { s with moved := (s.moved.1 + t.1, s.moved.2.1 + t.2.1, s.moved.2.2 + t.2.2) }

/-- The call `checkWorldCollision(request, result, world)`: a collision raises
`result.collision`; the flag is never lowered by the call. -/
def checkWorldCollision (P : Sweep) (s : SweepState) : SweepState :=
  { s with collision := s.collision || P.collides s.moved, queries := s.queries ++ [s.moved] }

/-- The body of the innermost loop. -/
def zBody (P : Sweep) (x y z : Nat) (s : SweepState) : SweepState :=
  let s1 := checkWorldCollision P (moveObject (0, 0, P.voxel_dimension) s)
  if s1.collision then { s1 with voxels := s1.voxels ++ [Voxel.mk x y z], collision := false }
  else s1

/-- The loop `for (uint16_t z = 0; z < z_voxels; ++z)`; the first argument bounds
the number of iterations. -/
def zLoop (P : Sweep) (x y : Nat) : Nat → Nat → SweepState → Option SweepState
  | 0, _, _ => none
  | fuel + 1, z, s =>
    if (z : Int) < P.z_voxels then zLoop P x y fuel ((z + 1) % UINT16_RANGE) (zBody P x y z s)
    else some s

/-- The loop `for (uint16_t y = 0; y < y_voxels; ++y)`; `fuel` bounds the iterations
of every inner loop, the next argument those of this one. -/
def yLoop (P : Sweep) (fuel x : Nat) : Nat → Nat → SweepState → Option SweepState
  | 0, _, _ => none
  | n + 1, y, s =>
    if (y : Int) < P.y_voxels then
      match zLoop P x y fuel 0 (moveObject (0, P.voxel_dimension, 0) s) with
      | none => none
      | some s1 =>
        yLoop P fuel x n ((y + 1) % UINT16_RANGE)
          (moveObject (0, 0, -(P.z_voxels * P.voxel_dimension)) s1)
    else some s

/-- The loop `for (uint16_t x = 0; x < x_voxels; ++x)`. -/
def xLoop (P : Sweep) (fuel : Nat) : Nat → Nat → SweepState → Option SweepState
  | 0, _, _ => none
  | n + 1, x, s =>
    if (x : Int) < P.x_voxels then
      match yLoop P fuel x fuel 0 (moveObject (P.voxel_dimension, 0, 0) s) with
      | none => none
      | some s1 =>
        xLoop P fuel n ((x + 1) % UINT16_RANGE)
          (moveObject (0, -(P.y_voxels * P.voxel_dimension), 0) s1)
    else some s

/-- The grid extents and step of `fromPlanningScene` for a volume region. -/
def sweepOf (volume_region_ : RoadmapVolume) (collides : ℚ × ℚ × ℚ → Bool) : Sweep :=
  { voxel_dimension := volume_region_.voxel_dimension
    x_voxels := toInt (volume_region_.dimensions.1 / volume_region_.voxel_dimension)
    y_voxels := toInt (volume_region_.dimensions.2.1 / volume_region_.voxel_dimension)
    z_voxels := toInt (volume_region_.dimensions.2.2 / volume_region_.voxel_dimension)
    collides := collides }

/-- The state in which the sweep starts: box just added, fresh `result`, voxel list
resized to 0. -/
def sweepStart : SweepState :=
  { moved := (0, 0, 0), collision := false, voxels := [], queries := [] }

/-- What `fromPlanningScene` returns and leaves behind: the return value, the
occupancy data and the collision queries it made. -/
structure FromPlanningSceneResult where
  result : Bool
  occupancy_data : OccupancyData
  queries : List (ℚ × ℚ × ℚ)

/-- The method `fromPlanningScene`; `none` when some loop runs more than `fuel`
iterations. -/
def fromPlanningScene (fuel : Nat) (volume_region_ : RoadmapVolume)
    (collides : ℚ × ℚ × ℚ → Bool) (occupancy_data : OccupancyData) :
    Option FromPlanningSceneResult :=
  match xLoop (sweepOf volume_region_ collides) fuel fuel 0 sweepStart with
  | none => none
  | some s =>
    some
      { result := true
        occupancy_data :=
          { occupancy_data with type := OccupancyDataType.VOXELS, voxels := s.voxels }
        queries := s.queries }

/-- The grid cells in raster order, `x` outermost and `z` innermost. -/
def rasterCells (x_voxels y_voxels z_voxels : Nat) : List Voxel :=
  (List.range x_voxels).flatMap fun x =>
    (List.range y_voxels).flatMap fun y =>
      (List.range z_voxels).map fun z => Voxel.mk x y z

/-- The translation of the test box at the query of a cell, counted from where
the box was added. -/
def cellTranslation (voxel_dimension : ℚ) (cell : Voxel) : ℚ × ℚ × ℚ :=
  ((cell.x + 1) * voxel_dimension, (cell.y + 1) * voxel_dimension, (cell.z + 1) * voxel_dimension)

/-! ## Auxiliary definitions for the statements and proofs -/

/-- The body of the `y` loop on a terminating inner loop. -/
def yBody (P : Sweep) (x y : Nat) (s : SweepState) : SweepState :=
  moveObject (0, 0, -(P.z_voxels * P.voxel_dimension))
    ((List.range P.z_voxels.toNat).foldl (fun s z => zBody P x y z s)
      (moveObject (0, P.voxel_dimension, 0) s))

/-- The body of the `x` loop on terminating inner loops. -/
def xBody (P : Sweep) (x : Nat) (s : SweepState) : SweepState :=
  moveObject (0, -(P.y_voxels * P.voxel_dimension), 0)
    ((List.range P.y_voxels.toNat).foldl (fun s y => yBody P x y s)
      (moveObject (P.voxel_dimension, 0, 0) s))

/-- The translation of the box at the query of cell `(x, y, z)` when the sweep is
entered with translation `m`, for arbitrary (also negative) extents. -/
def queryAt (P : Sweep) (m : ℚ × ℚ × ℚ) (x y z : Nat) : ℚ × ℚ × ℚ :=
  (m.1 + (x + 1) * P.voxel_dimension,
   m.2.1 + x * (P.y_voxels.toNat * P.voxel_dimension - P.y_voxels * P.voxel_dimension)
     + (y + 1) * P.voxel_dimension,
   m.2.2 + (x * P.y_voxels.toNat + y) *
       (P.z_voxels.toNat * P.voxel_dimension - P.z_voxels * P.voxel_dimension)
     + (z + 1) * P.voxel_dimension)

/-- The state in which a sweep that returns leaves the handler. -/
def sweepEnd (P : Sweep) : SweepState :=
  (List.range P.x_voxels.toNat).foldl (fun s x => xBody P x s) sweepStart

/-- The distinct roadmap ids of a call sequence, in the order of their first call,
continuing from the ids `seen` so far. -/
def firstSeen (seen : List String) (ids : List String) : List String :=
  ids.foldl (fun acc id => if id ∈ acc then acc else acc ++ [id]) seen

/-- Name of the `n`-th roadmap of a long call sequence: `n` letters. -/
def roadmapName (n : Nat) : String :=
  String.mk (List.replicate n 'r')

/-- The specifications of `n` roadmaps with pairwise different ids. -/
def manyRoadmaps (n : Nat) : List RoadmapSpecification :=
  (List.range n).map fun k =>
    { roadmap_id := roadmapName k, files := { occupancy := roadmapName k } }

/-! ## The `solve` overload that returns configurations -/

/-- The loop `for (unsigned int waypoint : waypoints)
solution_path.push_back(roadmap_states[waypoint]);`; an index outside
`roadmap_states` has no defined result (`none`). -/
def fillSolutionPath (roadmap_states : List Config) : List Nat → List Config → Option (List Config)
  | [], solution_path => some solution_path
  | waypoint :: waypoints, solution_path =>
    match roadmap_states[waypoint]? with
    | some state => fillSolutionPath roadmap_states waypoints (solution_path ++ [state])
    | none => none

/-- What the five-argument `solve` returns and leaves in `solution_path`. -/
structure SolutionPathResult (σ : Type) where
  success : Bool
  self : RTRPlannerInterface σ
  solution_path : List Config

/-- The five-argument `solve`: the seven-argument `solve` is called with empty
`roadmap_states`, `waypoints` and `edges`, and on success the solution path is
filled from the waypoints. -/
def solveSolutionPath {σ : Type} (E : Engine σ) (self : RTRPlannerInterface σ)
    (roadmap_spec : RoadmapSpecification) (start_config : Config) (goal : RapidPlanGoal)
    (occupancy_voxels : List Voxel) (solution_path : List Config) :
    Option (SolutionPathResult σ) :=
  let solved := solve E self roadmap_spec start_config goal occupancy_voxels [] [] []
  if solved.success then
    match fillSolutionPath solved.roadmap_states solved.waypoints solution_path with
    | some filled => some { success := true, self := solved.self, solution_path := filled }
    | none => none
  else some { success := false, self := solved.self, solution_path := solution_path }

/-- A stand-in engine like `stubEngine` without device whose searches answer
`status` and the waypoints `found`. -/
def pathEngine (configs : List Config) (status : Int) (found : List Nat) : Engine Unit :=
  { stubEngine false true configs status with
    FindPathToPose := fun _ _ _ _ _ _ _ edges =>
      { status := status, waypoints := found, edges := edges, planner := () }
    FindPathToIds := fun _ _ _ _ _ edges =>
      { status := status, waypoints := found, edges := edges, planner := () } }

/-! ## Poses of the test box -/

/-- An Eigen rigid transform (`Affine3d`, `Isometry3d`): the three rows of its
linear part and its translation. -/
structure Transform where
  linear : (ℚ × ℚ × ℚ) × (ℚ × ℚ × ℚ) × (ℚ × ℚ × ℚ)
  translation : ℚ × ℚ × ℚ
deriving DecidableEq

/-- The scalar product of two vectors. -/
def dot (a b : ℚ × ℚ × ℚ) : ℚ :=
  a.1 * b.1 + a.2.1 * b.2.1 + a.2.2 * b.2.2

/-- The linear part of a transform applied to a vector. -/
def Transform.rotate (A : Transform) (p : ℚ × ℚ × ℚ) : ℚ × ℚ × ℚ :=
  (dot A.linear.1 p, dot A.linear.2.1 p, dot A.linear.2.2 p)

/-- One row of a product of linear parts: `row` against the three columns of `B`. -/
def Transform.mulRow (row : ℚ × ℚ × ℚ) (B : Transform) : ℚ × ℚ × ℚ :=
  (dot row (B.linear.1.1, B.linear.2.1.1, B.linear.2.2.1),
   dot row (B.linear.1.2.1, B.linear.2.1.2.1, B.linear.2.2.2.1),
   dot row (B.linear.1.2.2, B.linear.2.1.2.2, B.linear.2.2.2.2))

/-- The product `A * B` of two transforms: first `B`, then `A`. -/
def Transform.mul (A B : Transform) : Transform :=
  { linear :=
      (Transform.mulRow A.linear.1 B, Transform.mulRow A.linear.2.1 B,
        Transform.mulRow A.linear.2.2 B)
    translation :=
      (A.translation.1 + (A.rotate B.translation).1,
       A.translation.2.1 + (A.rotate B.translation).2.1,
       A.translation.2.2 + (A.rotate B.translation).2.2) }

/-- The transform `identity * Eigen::Translation3d(t)`: no rotation, translation `t`. -/
def Translation3d (t : ℚ × ℚ × ℚ) : Transform :=
  { linear := ((1, 0, 0), (0, 1, 0), (0, 0, 1)), translation := t }

/-- The translation `box_start_position` of `fromPlanningScene`. -/
def box_start_position (volume_region_ : RoadmapVolume) : ℚ × ℚ × ℚ :=
  (-(volume_region_.voxel_dimension + volume_region_.dimensions.1) / 2,
   -(volume_region_.voxel_dimension + volume_region_.dimensions.2.1) / 2,
   -(volume_region_.voxel_dimension + volume_region_.dimensions.2.2) / 2)

/-- The pose of the test box in the world once the translations `moved` have been
applied: the box is added at `world_to_volume * box_start_position`, and
`World::moveObject` of MoveIt takes its transform in the world frame, replacing
the pose by `transform * pose`. -/
def boxPose (world_to_volume : Transform) (volume_region_ : RoadmapVolume)
    (moved : ℚ × ℚ × ℚ) : Transform :=
  (Translation3d moved).mul (world_to_volume.mul (Translation3d (box_start_position volume_region_)))

/-- The centre of a grid cell, as an offset from the volume pose. -/
def cellCentre (volume_region_ : RoadmapVolume) (cell : Voxel) : ℚ × ℚ × ℚ :=
  (-volume_region_.dimensions.1 / 2 + (cell.x + 1 / 2) * volume_region_.voxel_dimension,
   -volume_region_.dimensions.2.1 / 2 + (cell.y + 1 / 2) * volume_region_.voxel_dimension,
   -volume_region_.dimensions.2.2 / 2 + (cell.z + 1 / 2) * volume_region_.voxel_dimension)

/-- The volume pose of a region whose centre pose is turned by half a turn about
the vertical axis (orientation quaternion `(0, 0, 1, 0)`) in a base frame that
coincides with the world frame. -/
def halfTurn : Transform :=
  { linear := ((-1, 0, 0), (0, -1, 0), (0, 0, 1)), translation := (0, 0, 0) }

/-! ## Joint-space distance and nearest configuration (C1, C3, C9) -/

theorem sumAbsDifferences_comm (first second : Config) (distance : ℚ) :
    sumAbsDifferences first second distance = sumAbsDifferences second first distance := by
  induction first generalizing second distance with
  | nil => cases second <;> simp [sumAbsDifferences]
  | cons a first ih =>
    cases second with
    | nil => simp [sumAbsDifferences]
    | cons b second => simp [sumAbsDifferences, abs_sub_comm a b, ih]

theorem sumAbsDifferences_self (first : Config) (distance : ℚ) :
    sumAbsDifferences first first distance = distance := by
  induction first generalizing distance with
  | nil => simp [sumAbsDifferences]
  | cons a first ih => simp [sumAbsDifferences, ih]

theorem getConfigDistance_eq_top_iff (first second : Config) :
    getConfigDistance first second = ⊤ ↔ first.length ≠ second.length := by
  unfold getConfigDistance
  split <;> simp_all

theorem getConfigDistance_lt_top_iff (first second : Config) :
    getConfigDistance first second < ⊤ ↔ first.length = second.length := by
  rw [lt_top_iff_ne_top, Ne, getConfigDistance_eq_top_iff]
  simp

/-- What the loop of `findClosestConfigId` leaves in `min_distance` and `result_id`:
either nothing beat the incoming minimum, or the first strict minimiser did. -/
theorem findClosestLoop_spec (config : Config) (configs : List Config) (i : Nat)
    (m : WithTop ℚ) (r : Nat) :
    (findClosestLoop config configs i m r = (m, r) ∧
        ∀ c ∈ configs, m ≤ getConfigDistance config c) ∨
    (∃ (k : Nat) (c : Config), configs[k]? = some c ∧
        findClosestLoop config configs i m r = (getConfigDistance config c, (i + k) % UINT_RANGE) ∧
        getConfigDistance config c < m ∧
        (∀ (j : Nat) (d : Config), configs[j]? = some d → getConfigDistance config c ≤ getConfigDistance config d) ∧
        (∀ (j : Nat) (d : Config), configs[j]? = some d → j < k →
          getConfigDistance config c < getConfigDistance config d)) := by
  induction configs generalizing i m r with
  | nil => left; simp [findClosestLoop]
  | cons c0 configs ih =>
    by_cases hlt : getConfigDistance config c0 < m
    · rw [findClosestLoop, if_pos hlt]
      rcases ih (i + 1) (getConfigDistance config c0) (i % UINT_RANGE) with ⟨heq, hall⟩ | ⟨k, c, hk, heq, hck, hmin, hlow⟩
      · right
        refine ⟨0, c0, by simp, by simpa using heq, hlt, ?_, ?_⟩
        · intro j d hj
          cases j with
          | zero => simp at hj; subst hj; exact le_refl _
          | succ j =>
            simp at hj
            exact hall d (List.getElem?_mem hj)
        · intro j d _ hj0; omega
      · right
        refine ⟨k + 1, c, by simpa using hk, ?_, lt_trans hck hlt, ?_, ?_⟩
        · rw [heq]; congr 2; omega
        · intro j d hj
          cases j with
          | zero => simp at hj; subst hj; exact le_of_lt hck
          | succ j => simp at hj; exact hmin j d hj
        · intro j d hj hjk
          cases j with
          | zero => simp at hj; subst hj; exact hck
          | succ j => simp at hj; exact hlow j d hj (by omega)
    · rw [findClosestLoop, if_neg hlt]
      have hle : m ≤ getConfigDistance config c0 := not_lt.mp hlt
      rcases ih (i + 1) m r with ⟨heq, hall⟩ | ⟨k, c, hk, heq, hck, hmin, hlow⟩
      · left
        refine ⟨heq, ?_⟩
        intro c hc
        rcases List.mem_cons.mp hc with rfl | hc
        · exact hle
        · exact hall c hc
      · right
        refine ⟨k + 1, c, by simpa using hk, ?_, hck, ?_, ?_⟩
        · rw [heq]; congr 2; omega
        · intro j d hj
          cases j with
          | zero => simp at hj; subst hj; exact le_of_lt (lt_of_lt_of_le hck hle)
          | succ j => simp at hj; exact hmin j d hj
        · intro j d hj hjk
          cases j with
          | zero => simp at hj; subst hj; exact lt_of_lt_of_le hck hle
          | succ j => simp at hj; exact hlow j d hj (by omega)

/-! ### The search in floating point (C1) -/

/-- C3, amended: for every query configuration and every non-empty configuration
list in which no configuration has the query's length, `findClosestConfigId`
returns 4294967295, the value `(unsigned int) -1` that `result_id` starts with
(no distance is below `min_distance`, so `result_id` is never assigned). -/
theorem findClosestConfigId_no_match (config : Config) (configs : List Config)
    (_hne : configs ≠ [])
    (hnone : ∀ c ∈ configs, c.length ≠ config.length) :
    findClosestConfigId config configs = 4294967295 := by
  unfold findClosestConfigId
  rcases findClosestLoop_spec config configs 0 ⊤ (UINT_RANGE - 1) with
    ⟨heq, _⟩ | ⟨k, c, hk, _, hck, _, _⟩
  · rw [heq]
    norm_num [UINT_RANGE]
  · exfalso
    have := (getConfigDistance_lt_top_iff config c).mp hck
    exact hnone c (List.getElem?_mem hk) this.symm

/-- C3, witness: the one-joint configuration `[1]` against the two-joint query
`[1, 2]`. -/
theorem findClosestConfigId_no_match_witness :
    findClosestConfigId [1, 2] [[1]] = 4294967295 :=
  findClosestConfigId_no_match [1, 2] [[1]] (by decide) (by decide)

/-- C3, counterexample: the list `[[1]]` is non-empty and holds no configuration
of the length of the query `[1, 2]`, and `findClosestConfigId` returns
4294967295, not 0. -/
theorem findClosestConfigId_no_match_not_zero :
    ([[1]] : List Config) ≠ [] ∧
    (∀ c ∈ ([[1]] : List Config), c.length ≠ ([1, 2] : Config).length) ∧
    findClosestConfigId [1, 2] [[1]] = 4294967295 ∧
    findClosestConfigId [1, 2] [[1]] ≠ 0 := by
  decide

/-- C9: for all configurations `A` and `B` of equal length,
`getConfigDistance A B = getConfigDistance B A`, and `getConfigDistance A A = 0`
(joint values are exact rationals). -/
theorem getConfigDistance_symm_self (A B : Config) (h : A.length = B.length) :
    getConfigDistance A B = getConfigDistance B A ∧ getConfigDistance A A = 0 := by
  constructor
  · simp [getConfigDistance, h, sumAbsDifferences_comm A B]
  · simp [getConfigDistance, sumAbsDifferences_self]

/-- C9, witness: the configurations `[0.5, 1]` and `[2, 3]`. -/
theorem getConfigDistance_symm_self_witness :
    getConfigDistance [0.5, 1] [2, 3] = getConfigDistance [2, 3] [0.5, 1] ∧
    getConfigDistance [0.5, 1] [0.5, 1] = 0 :=
  getConfigDistance_symm_self [0.5, 1] [2, 3] rfl

/-! ## The voxel sweep of `fromPlanningScene` (C4, C5) -/

theorem zLoop_eq_foldl (P : Sweep) (x y : Nat) (hz : P.z_voxels ≤ 65535) (k : Nat) :
    ∀ (fuel z : Nat) (s : SweepState), z + k = P.z_voxels.toNat → k < fuel →
      zLoop P x y fuel z s = some ((List.range' z k).foldl (fun s z => zBody P x y z s) s) := by
  induction k with
  | zero =>
    intro fuel z s hzk hfuel
    obtain ⟨fuel, rfl⟩ : ∃ f, fuel = f + 1 := ⟨fuel - 1, by omega⟩
    have : ¬ ((z : Int) < P.z_voxels) := by omega
    simp [zLoop, this]
  | succ k ih =>
    intro fuel z s hzk hfuel
    obtain ⟨fuel, rfl⟩ : ∃ f, fuel = f + 1 := ⟨fuel - 1, by omega⟩
    have hlt : (z : Int) < P.z_voxels := by omega
    have hmod : (z + 1) % UINT16_RANGE = z + 1 := Nat.mod_eq_of_lt (by simp [UINT16_RANGE]; omega)
    rw [zLoop, if_pos hlt, hmod, ih fuel (z + 1) _ (by omega) (by omega)]
    simp [List.range'_succ]

theorem zLoop_diverges (P : Sweep) (x y : Nat) (hz : 65535 < P.z_voxels) :
    ∀ (fuel z : Nat) (s : SweepState), z < UINT16_RANGE → zLoop P x y fuel z s = none := by
  intro fuel
  induction fuel with
  | zero => intro z s _; rfl
  | succ fuel ih =>
    intro z s hzr
    have hlt : (z : Int) < P.z_voxels := by simp [UINT16_RANGE] at hzr; omega
    rw [zLoop, if_pos hlt]
    exact ih _ _ (Nat.mod_lt _ (by simp [UINT16_RANGE]))

theorem zLoop_none_or_foldl (P : Sweep) (x y : Nat) :
    ∀ (fuel z : Nat) (s : SweepState), z ≤ P.z_voxels.toNat → z < UINT16_RANGE →
      zLoop P x y fuel z s = none ∨
      zLoop P x y fuel z s =
        some ((List.range' z (P.z_voxels.toNat - z)).foldl (fun s z => zBody P x y z s) s) := by
  by_cases hz : P.z_voxels ≤ 65535
  · intro fuel
    induction fuel with
    | zero => intro z s _ _; left; rfl
    | succ fuel ih =>
      intro z s hzn hzr
      by_cases hlt : (z : Int) < P.z_voxels
      · have hmod : (z + 1) % UINT16_RANGE = z + 1 :=
          Nat.mod_eq_of_lt (by simp [UINT16_RANGE]; omega)
        have hk : P.z_voxels.toNat - z = (P.z_voxels.toNat - (z + 1)) + 1 := by omega
        rw [zLoop, if_pos hlt, hmod, hk, List.range'_succ, List.foldl_cons]
        exact ih (z + 1) _ (by omega) (by simp [UINT16_RANGE]; omega)
      · right
        have hk : P.z_voxels.toNat - z = 0 := by omega
        rw [zLoop, if_neg hlt, hk]
        rfl
  · intro fuel z s _ hzr
    left
    exact zLoop_diverges P x y (by omega) fuel z s hzr

theorem yLoop_eq_foldl (P : Sweep) (fuel x : Nat) (hz : P.z_voxels ≤ 65535)
    (hy : P.y_voxels ≤ 65535) (hfuel : P.z_voxels.toNat < fuel) (k : Nat) :
    ∀ (n y : Nat) (s : SweepState), y + k = P.y_voxels.toNat → k < n →
      yLoop P fuel x n y s = some ((List.range' y k).foldl (fun s y => yBody P x y s) s) := by
  induction k with
  | zero =>
    intro n y s hyk hn
    obtain ⟨n, rfl⟩ : ∃ f, n = f + 1 := ⟨n - 1, by omega⟩
    have : ¬ ((y : Int) < P.y_voxels) := by omega
    simp [yLoop, this]
  | succ k ih =>
    intro n y s hyk hn
    obtain ⟨n, rfl⟩ : ∃ f, n = f + 1 := ⟨n - 1, by omega⟩
    have hlt : (y : Int) < P.y_voxels := by omega
    have hmod : (y + 1) % UINT16_RANGE = y + 1 := Nat.mod_eq_of_lt (by simp [UINT16_RANGE]; omega)
    rw [yLoop, if_pos hlt, hmod,
      zLoop_eq_foldl P x y hz P.z_voxels.toNat fuel 0 _ (by omega) hfuel]
    simp only []
    rw [ih n (y + 1) _ (by omega) (by omega), List.range'_succ, List.foldl_cons,
      ← List.range_eq_range']
    rfl

theorem yLoop_diverges (P : Sweep) (fuel x : Nat)
    (h : 65535 < P.y_voxels ∨ (65535 < P.z_voxels ∧ 0 < P.y_voxels)) :
    ∀ (n y : Nat) (s : SweepState), y < UINT16_RANGE → (65535 < P.y_voxels ∨ y = 0) →
      yLoop P fuel x n y s = none := by
  intro n
  induction n with
  | zero => intro y s _ _; rfl
  | succ n ih =>
    intro y s hyr hy0
    have hlt : (y : Int) < P.y_voxels := by
      simp [UINT16_RANGE] at hyr
      rcases hy0 with h1 | h1
      · omega
      · rcases h with h2 | h2 <;> omega
    rw [yLoop, if_pos hlt]
    by_cases hz : 65535 < P.z_voxels
    · rw [zLoop_diverges P x y hz fuel 0 _ (by simp [UINT16_RANGE])]
    · have hy : 65535 < P.y_voxels := by rcases h with h2 | h2 <;> omega
      cases hzl : zLoop P x y fuel 0 (moveObject (0, P.voxel_dimension, 0) s) with
      | none => rfl
      | some s1 =>
        simp only []
        exact ih _ _ (Nat.mod_lt _ (by simp [UINT16_RANGE])) (Or.inl hy)

theorem yLoop_none_or_foldl (P : Sweep) (fuel x : Nat) :
    ∀ (n y : Nat) (s : SweepState), y ≤ P.y_voxels.toNat → y < UINT16_RANGE →
      yLoop P fuel x n y s = none ∨
      yLoop P fuel x n y s =
        some ((List.range' y (P.y_voxels.toNat - y)).foldl (fun s y => yBody P x y s) s) := by
  by_cases hy : P.y_voxels ≤ 65535
  · intro n
    induction n with
    | zero => intro y s _ _; left; rfl
    | succ n ih =>
      intro y s hyn hyr
      by_cases hlt : (y : Int) < P.y_voxels
      · have hmod : (y + 1) % UINT16_RANGE = y + 1 :=
          Nat.mod_eq_of_lt (by simp [UINT16_RANGE]; omega)
        have hk : P.y_voxels.toNat - y = (P.y_voxels.toNat - (y + 1)) + 1 := by omega
        rw [yLoop, if_pos hlt, hmod, hk, List.range'_succ, List.foldl_cons]
        rcases zLoop_none_or_foldl P x y fuel 0 (moveObject (0, P.voxel_dimension, 0) s)
          (Nat.zero_le _) (by simp [UINT16_RANGE]) with hzl | hzl
        · left; rw [hzl]
        · rw [hzl]
          simp only [Nat.sub_zero, ← List.range_eq_range']
          exact ih (y + 1) _ (by omega) (by simp [UINT16_RANGE]; omega)
      · right
        have hk : P.y_voxels.toNat - y = 0 := by omega
        rw [yLoop, if_neg hlt, hk]
        rfl
  · intro n y s _ hyr
    left
    exact yLoop_diverges P fuel x (Or.inl (by omega)) n y s hyr (Or.inl (by omega))

theorem xLoop_eq_foldl (P : Sweep) (fuel : Nat) (hz : P.z_voxels ≤ 65535)
    (hy : P.y_voxels ≤ 65535) (hx : P.x_voxels ≤ 65535)
    (hfz : P.z_voxels.toNat < fuel) (hfy : P.y_voxels.toNat < fuel) (k : Nat) :
    ∀ (n x : Nat) (s : SweepState), x + k = P.x_voxels.toNat → k < n →
      xLoop P fuel n x s = some ((List.range' x k).foldl (fun s x => xBody P x s) s) := by
  induction k with
  | zero =>
    intro n x s hxk hn
    obtain ⟨n, rfl⟩ : ∃ f, n = f + 1 := ⟨n - 1, by omega⟩
    have : ¬ ((x : Int) < P.x_voxels) := by omega
    simp [xLoop, this]
  | succ k ih =>
    intro n x s hxk hn
    obtain ⟨n, rfl⟩ : ∃ f, n = f + 1 := ⟨n - 1, by omega⟩
    have hlt : (x : Int) < P.x_voxels := by omega
    have hmod : (x + 1) % UINT16_RANGE = x + 1 := Nat.mod_eq_of_lt (by simp [UINT16_RANGE]; omega)
    rw [xLoop, if_pos hlt, hmod,
      yLoop_eq_foldl P fuel x hz hy hfz P.y_voxels.toNat fuel 0 _ (by omega) hfy]
    simp only []
    rw [ih n (x + 1) _ (by omega) (by omega), List.range'_succ, List.foldl_cons,
      ← List.range_eq_range']
    rfl

theorem xLoop_diverges (P : Sweep) (fuel : Nat)
    (h : 65535 < P.x_voxels ∨
      (0 < P.x_voxels ∧ (65535 < P.y_voxels ∨ (65535 < P.z_voxels ∧ 0 < P.y_voxels)))) :
    ∀ (n x : Nat) (s : SweepState), x < UINT16_RANGE → (65535 < P.x_voxels ∨ x = 0) →
      xLoop P fuel n x s = none := by
  intro n
  induction n with
  | zero => intro x s _ _; rfl
  | succ n ih =>
    intro x s hxr hx0
    have hlt : (x : Int) < P.x_voxels := by
      simp [UINT16_RANGE] at hxr
      rcases hx0 with h1 | h1
      · omega
      · rcases h with h2 | h2 <;> omega
    rw [xLoop, if_pos hlt]
    by_cases hyz : 65535 < P.y_voxels ∨ (65535 < P.z_voxels ∧ 0 < P.y_voxels)
    · rw [yLoop_diverges P fuel x hyz fuel 0 _ (by simp [UINT16_RANGE]) (Or.inr rfl)]
    · have hx : 65535 < P.x_voxels := by
        rcases h with h2 | h2
        · exact h2
        · exact absurd h2.2 hyz
      cases hyl : yLoop P fuel x fuel 0 (moveObject (P.voxel_dimension, 0, 0) s) with
      | none => rfl
      | some s1 =>
        simp only []
        exact ih _ _ (Nat.mod_lt _ (by simp [UINT16_RANGE])) (Or.inl hx)

theorem xLoop_none_or_foldl (P : Sweep) (fuel : Nat) :
    ∀ (n x : Nat) (s : SweepState), x ≤ P.x_voxels.toNat → x < UINT16_RANGE →
      xLoop P fuel n x s = none ∨
      xLoop P fuel n x s =
        some ((List.range' x (P.x_voxels.toNat - x)).foldl (fun s x => xBody P x s) s) := by
  by_cases hx : P.x_voxels ≤ 65535
  · intro n
    induction n with
    | zero => intro x s _ _; left; rfl
    | succ n ih =>
      intro x s hxn hxr
      by_cases hlt : (x : Int) < P.x_voxels
      · have hmod : (x + 1) % UINT16_RANGE = x + 1 :=
          Nat.mod_eq_of_lt (by simp [UINT16_RANGE]; omega)
        have hk : P.x_voxels.toNat - x = (P.x_voxels.toNat - (x + 1)) + 1 := by omega
        rw [xLoop, if_pos hlt, hmod, hk, List.range'_succ, List.foldl_cons]
        rcases yLoop_none_or_foldl P fuel x fuel 0 (moveObject (P.voxel_dimension, 0, 0) s)
          (Nat.zero_le _) (by simp [UINT16_RANGE]) with hyl | hyl
        · left; rw [hyl]
        · rw [hyl]
          simp only [Nat.sub_zero, ← List.range_eq_range']
          exact ih (x + 1) _ (by omega) (by simp [UINT16_RANGE]; omega)
      · right
        have hk : P.x_voxels.toNat - x = 0 := by omega
        rw [xLoop, if_neg hlt, hk]
        rfl
  · intro n x s _ hxr
    left
    exact xLoop_diverges P fuel (Or.inl (by omega)) n x s hxr (Or.inl (by omega))

theorem zFold_spec (P : Sweep) (x y : Nat) (f : Nat → ℚ × ℚ × ℚ) (s : SweepState)
    (hc : s.collision = false) (n : Nat)
    (hf : ∀ z, f z = (s.moved.1, s.moved.2.1, s.moved.2.2 + (z + 1) * P.voxel_dimension)) :
    (List.range n).foldl (fun s z => zBody P x y z s) s =
      { moved := (s.moved.1, s.moved.2.1, s.moved.2.2 + n * P.voxel_dimension)
        collision := false
        voxels := s.voxels ++
          ((List.range n).filter (fun z => P.collides (f z))).map (fun z => Voxel.mk x y z)
        queries := s.queries ++ (List.range n).map f } := by
  induction n with
  | zero => cases s; simp_all
  | succ n ih =>
    rw [List.range_succ, List.foldl_append, ih]
    simp only [List.foldl_cons, List.foldl_nil, zBody, checkWorldCollision, moveObject,
      Bool.false_or, List.filter_append, List.map_append, hf n]
    have hm : s.moved.2.2 + (n : ℚ) * P.voxel_dimension + P.voxel_dimension =
        s.moved.2.2 + ((n : ℚ) + 1) * P.voxel_dimension := by ring
    by_cases hcol : P.collides (s.moved.1, s.moved.2.1, s.moved.2.2 + ((n : ℚ) + 1) * P.voxel_dimension)
    · simp [hm, hcol, hf, List.filter_cons, List.append_assoc]
    · simp [hm, hcol, hf, List.filter_cons, List.append_assoc]

theorem yFold_spec (P : Sweep) (x : Nat) (g : Nat → Nat → ℚ × ℚ × ℚ) (s : SweepState)
    (hc : s.collision = false) (n : Nat)
    (hg : ∀ y z, g y z = (s.moved.1, s.moved.2.1 + (y + 1) * P.voxel_dimension,
      s.moved.2.2 + y * (P.z_voxels.toNat * P.voxel_dimension - P.z_voxels * P.voxel_dimension)
        + (z + 1) * P.voxel_dimension)) :
    (List.range n).foldl (fun s y => yBody P x y s) s =
      { moved := (s.moved.1, s.moved.2.1 + n * P.voxel_dimension,
          s.moved.2.2 + n * (P.z_voxels.toNat * P.voxel_dimension - P.z_voxels * P.voxel_dimension))
        collision := false
        voxels := s.voxels ++ (List.range n).flatMap (fun y =>
          ((List.range P.z_voxels.toNat).filter (fun z => P.collides (g y z))).map
            (fun z => Voxel.mk x y z))
        queries := s.queries ++ (List.range n).flatMap (fun y =>
          (List.range P.z_voxels.toNat).map (g y)) } := by
  induction n with
  | zero => cases s; simp_all
  | succ n ih =>
    rw [List.range_succ, List.foldl_append, ih]
    simp only [List.foldl_cons, List.foldl_nil, yBody]
    rw [zFold_spec P x n (g n) _ (by simp [moveObject]) _ (by intro z; simp [moveObject, hg]; ring)]
    simp only [moveObject, List.flatMap_append, List.flatMap_cons, List.flatMap_nil,
      List.append_nil, List.append_assoc, SweepState.mk.injEq, Prod.mk.injEq, true_and, and_true]
    repeat' constructor
    all_goals (push_cast; ring)

theorem xFold_spec (P : Sweep) (s : SweepState) (hc : s.collision = false) (n : Nat) :
    (List.range n).foldl (fun s x => xBody P x s) s =
      { moved := (s.moved.1 + n * P.voxel_dimension,
          s.moved.2.1 + n * (P.y_voxels.toNat * P.voxel_dimension - P.y_voxels * P.voxel_dimension),
          s.moved.2.2 + (n * P.y_voxels.toNat) *
            (P.z_voxels.toNat * P.voxel_dimension - P.z_voxels * P.voxel_dimension))
        collision := false
        voxels := s.voxels ++ (List.range n).flatMap (fun x =>
          (List.range P.y_voxels.toNat).flatMap (fun y =>
            ((List.range P.z_voxels.toNat).filter (fun z => P.collides (queryAt P s.moved x y z))).map
              (fun z => Voxel.mk x y z)))
        queries := s.queries ++ (List.range n).flatMap (fun x =>
          (List.range P.y_voxels.toNat).flatMap (fun y =>
            (List.range P.z_voxels.toNat).map (queryAt P s.moved x y))) } := by
  induction n with
  | zero => cases s; simp_all
  | succ n ih =>
    rw [List.range_succ, List.foldl_append, ih]
    simp only [List.foldl_cons, List.foldl_nil, xBody]
    rw [yFold_spec P n (queryAt P s.moved n) _ (by simp [moveObject]) _
      (by
        intro y z
        simp only [moveObject, queryAt, Prod.mk.injEq]
        refine ⟨by ring, by ring, by ring⟩)]
    simp only [moveObject, List.flatMap_append, List.flatMap_cons, List.flatMap_nil,
      List.append_nil, List.append_assoc, SweepState.mk.injEq, Prod.mk.injEq, true_and, and_true]
    repeat' constructor
    all_goals (push_cast; ring)

theorem queryAt_eq_cellTranslation (P : Sweep) (x y z : Nat)
    (hy : y < P.y_voxels.toNat) (hz : z < P.z_voxels.toNat) :
    queryAt P (0, 0, 0) x y z = cellTranslation P.voxel_dimension (Voxel.mk x y z) := by
  have hy1 : ((P.y_voxels.toNat : Int) : ℚ) = (P.y_voxels : ℚ) := by
    rw [Int.toNat_of_nonneg (by omega)]
  have hz1 : ((P.z_voxels.toNat : Int) : ℚ) = (P.z_voxels : ℚ) := by
    rw [Int.toNat_of_nonneg (by omega)]
  simp only [Int.cast_natCast] at hy1 hz1
  simp only [queryAt, cellTranslation, hy1, hz1, Prod.mk.injEq]
  refine ⟨by ring, by ring, by ring⟩

theorem raster_voxels_eq (P : Sweep) (nx : Nat) :
    ((List.range nx).flatMap fun x =>
      (List.range P.y_voxels.toNat).flatMap fun y =>
        ((List.range P.z_voxels.toNat).filter
          (fun z => P.collides (queryAt P (0, 0, 0) x y z))).map (fun z => Voxel.mk x y z)) =
    (rasterCells nx P.y_voxels.toNat P.z_voxels.toNat).filter
      (fun cell => P.collides (cellTranslation P.voxel_dimension cell)) := by
  simp only [rasterCells, List.filter_flatMap, List.filter_map]
  refine List.flatMap_congr fun x _ => List.flatMap_congr fun y hy => ?_
  congr 1
  refine List.filter_congr fun z hz => ?_
  simp only [Function.comp]
  rw [queryAt_eq_cellTranslation P x y z (List.mem_range.mp hy) (List.mem_range.mp hz)]

theorem raster_queries_eq (P : Sweep) (nx : Nat) :
    ((List.range nx).flatMap fun x =>
      (List.range P.y_voxels.toNat).flatMap fun y =>
        (List.range P.z_voxels.toNat).map (queryAt P (0, 0, 0) x y)) =
    (rasterCells nx P.y_voxels.toNat P.z_voxels.toNat).map
      (cellTranslation P.voxel_dimension) := by
  simp only [rasterCells, List.map_flatMap, List.map_map]
  refine List.flatMap_congr fun x _ => List.flatMap_congr fun y hy => ?_
  refine List.map_congr_left fun z hz => ?_
  simp only [Function.comp]
  rw [queryAt_eq_cellTranslation P x y z (List.mem_range.mp hy) (List.mem_range.mp hz)]

theorem sweepEnd_voxels (P : Sweep) :
    (sweepEnd P).voxels =
      (rasterCells P.x_voxels.toNat P.y_voxels.toNat P.z_voxels.toNat).filter
        (fun cell => P.collides (cellTranslation P.voxel_dimension cell)) := by
  rw [sweepEnd, xFold_spec P sweepStart rfl]
  simp only [sweepStart, List.nil_append]
  exact raster_voxels_eq P _

theorem sweepEnd_queries (P : Sweep) :
    (sweepEnd P).queries =
      (rasterCells P.x_voxels.toNat P.y_voxels.toNat P.z_voxels.toNat).map
        (cellTranslation P.voxel_dimension) := by
  rw [sweepEnd, xFold_spec P sweepStart rfl]
  simp only [sweepStart, List.nil_append]
  exact raster_queries_eq P _

theorem xLoop_none_or_sweepEnd (P : Sweep) (fuel : Nat) :
    xLoop P fuel fuel 0 sweepStart = none ∨ xLoop P fuel fuel 0 sweepStart = some (sweepEnd P) := by
  have := xLoop_none_or_foldl P fuel fuel 0 sweepStart (Nat.zero_le _) (by simp [UINT16_RANGE])
  simpa [sweepEnd, ← List.range_eq_range'] using this

theorem xLoop_eq_sweepEnd (P : Sweep) (fuel : Nat) (hx : P.x_voxels ≤ 65535)
    (hy : P.y_voxels ≤ 65535) (hz : P.z_voxels ≤ 65535) (hfuel : 65535 < fuel) :
    xLoop P fuel fuel 0 sweepStart = some (sweepEnd P) := by
  have := xLoop_eq_foldl P fuel hz hy hx (by omega) (by omega) P.x_voxels.toNat fuel 0 sweepStart
    (by omega) (by omega)
  simpa [sweepEnd, ← List.range_eq_range'] using this

theorem length_flatMap_const {α β : Type} (l : List α) (f : α → List β) (c : Nat)
    (h : ∀ a, (f a).length = c) : (l.flatMap f).length = l.length * c := by
  induction l with
  | nil => simp
  | cons a l ih => simp [List.flatMap_cons, h, ih, Nat.succ_mul, Nat.add_comm]

theorem length_rasterCells (nx ny nz : Nat) : (rasterCells nx ny nz).length = nx * ny * nz := by
  unfold rasterCells
  rw [length_flatMap_const _ _ (ny * nz), List.length_range, Nat.mul_assoc]
  intro x
  rw [length_flatMap_const _ _ nz, List.length_range]
  intro y
  simp

theorem toInt_of_nonneg (q : ℚ) (h : 0 ≤ q) : toInt q = ⌊q⌋ := by
  simp [toInt, h]

theorem fromPlanningScene_eq (fuel : Nat) (volume_region_ : RoadmapVolume)
    (collides : ℚ × ℚ × ℚ → Bool) (occupancy_data : OccupancyData) (r : FromPlanningSceneResult)
    (h : fromPlanningScene fuel volume_region_ collides occupancy_data = some r) :
    r = { result := true
          occupancy_data := { occupancy_data with
            type := OccupancyDataType.VOXELS
            voxels := (sweepEnd (sweepOf volume_region_ collides)).voxels }
          queries := (sweepEnd (sweepOf volume_region_ collides)).queries } := by
  unfold fromPlanningScene at h
  rcases xLoop_none_or_sweepEnd (sweepOf volume_region_ collides) fuel with hx | hx
  · rw [hx] at h; cases h
  · rw [hx] at h
    exact (Option.some.inj h).symm

/-- C5: for every volume region, every collision oracle and every prior content of
the output, whenever `fromPlanningScene` returns, its collision queries are those
of the grid cells `(x, y, z)` in raster order (`x` outermost, `z` innermost), one
per cell, and the voxel list it leaves is exactly the sub-sequence of those cells
whose own query collides, whatever the earlier queries answered and whatever the
list held before; and it does return, for every fuel above 65535, when the three
extents fit the 16-bit loop counters. -/
theorem fromPlanningScene_voxels (volume_region_ : RoadmapVolume)
    (collides : ℚ × ℚ × ℚ → Bool) (occupancy_data : OccupancyData) :
    (∀ (fuel : Nat) (r : FromPlanningSceneResult),
      fromPlanningScene fuel volume_region_ collides occupancy_data = some r →
        r.queries =
          (rasterCells (sweepOf volume_region_ collides).x_voxels.toNat
            (sweepOf volume_region_ collides).y_voxels.toNat
            (sweepOf volume_region_ collides).z_voxels.toNat).map
            (cellTranslation volume_region_.voxel_dimension) ∧
        r.occupancy_data.voxels =
          (rasterCells (sweepOf volume_region_ collides).x_voxels.toNat
            (sweepOf volume_region_ collides).y_voxels.toNat
            (sweepOf volume_region_ collides).z_voxels.toNat).filter
            (fun cell => collides (cellTranslation volume_region_.voxel_dimension cell))) ∧
    ((sweepOf volume_region_ collides).x_voxels ≤ 65535 →
      (sweepOf volume_region_ collides).y_voxels ≤ 65535 →
      (sweepOf volume_region_ collides).z_voxels ≤ 65535 →
      ∀ fuel : Nat, 65535 < fuel →
        (fromPlanningScene fuel volume_region_ collides occupancy_data).isSome = true) := by
  refine ⟨?_, ?_⟩
  · intro fuel r h
    rw [fromPlanningScene_eq fuel volume_region_ collides occupancy_data r h]
    exact ⟨sweepEnd_queries _, sweepEnd_voxels _⟩
  · intro hx hy hz fuel hfuel
    unfold fromPlanningScene
    rw [xLoop_eq_sweepEnd _ fuel hx hy hz hfuel]
    rfl

/-- C4, the failing input: on the volume with dimensions `(65536, 1, 1)` and voxel
size 1 the extent `x_voxels` is 65536, the 16-bit counter `x` wraps from 65535 to
0 and stays below it, and `fromPlanningScene` does not return, whatever the number
of iterations allowed, the scene and the prior output. -/
theorem fromPlanningScene_never_returns (fuel : Nat) (collides : ℚ × ℚ × ℚ → Bool)
    (occupancy_data : OccupancyData) :
    fromPlanningScene fuel { dimensions := (65536, 1, 1), voxel_dimension := 1 } collides
      occupancy_data = none := by
  unfold fromPlanningScene
  rw [xLoop_diverges _ fuel (Or.inl (by norm_num [sweepOf, toInt])) fuel 0 sweepStart
    (by simp [UINT16_RANGE]) (Or.inr rfl)]

/-- For a volume with `0 < v ≤` each dimension whose three truncated quotients are at
most 65535, `fromPlanningScene` returns and has issued exactly
`⌊X / v⌋ * ⌊Y / v⌋ * ⌊Z / v⌋` collision queries. -/
theorem fromPlanningScene_query_count (volume_region_ : RoadmapVolume)
    (collides : ℚ × ℚ × ℚ → Bool) (occupancy_data : OccupancyData)
    (hv : 0 < volume_region_.voxel_dimension)
    (hX : volume_region_.voxel_dimension ≤ volume_region_.dimensions.1)
    (hY : volume_region_.voxel_dimension ≤ volume_region_.dimensions.2.1)
    (hZ : volume_region_.voxel_dimension ≤ volume_region_.dimensions.2.2)
    (hx : ⌊volume_region_.dimensions.1 / volume_region_.voxel_dimension⌋ ≤ 65535)
    (hy : ⌊volume_region_.dimensions.2.1 / volume_region_.voxel_dimension⌋ ≤ 65535)
    (hz : ⌊volume_region_.dimensions.2.2 / volume_region_.voxel_dimension⌋ ≤ 65535)
    (fuel : Nat) (hfuel : 65535 < fuel) :
    ∃ r, fromPlanningScene fuel volume_region_ collides occupancy_data = some r ∧
      (r.queries.length : Int) =
        ⌊volume_region_.dimensions.1 / volume_region_.voxel_dimension⌋ *
        ⌊volume_region_.dimensions.2.1 / volume_region_.voxel_dimension⌋ *
        ⌊volume_region_.dimensions.2.2 / volume_region_.voxel_dimension⌋ := by
  have hqx : 0 ≤ volume_region_.dimensions.1 / volume_region_.voxel_dimension :=
    div_nonneg (le_trans hv.le hX) hv.le
  have hqy : 0 ≤ volume_region_.dimensions.2.1 / volume_region_.voxel_dimension :=
    div_nonneg (le_trans hv.le hY) hv.le
  have hqz : 0 ≤ volume_region_.dimensions.2.2 / volume_region_.voxel_dimension :=
    div_nonneg (le_trans hv.le hZ) hv.le
  have ex : (sweepOf volume_region_ collides).x_voxels =
      ⌊volume_region_.dimensions.1 / volume_region_.voxel_dimension⌋ := toInt_of_nonneg _ hqx
  have ey : (sweepOf volume_region_ collides).y_voxels =
      ⌊volume_region_.dimensions.2.1 / volume_region_.voxel_dimension⌋ := toInt_of_nonneg _ hqy
  have ez : (sweepOf volume_region_ collides).z_voxels =
      ⌊volume_region_.dimensions.2.2 / volume_region_.voxel_dimension⌋ := toInt_of_nonneg _ hqz
  have hrun := xLoop_eq_sweepEnd (sweepOf volume_region_ collides) fuel (by rw [ex]; exact hx)
    (by rw [ey]; exact hy) (by rw [ez]; exact hz) hfuel
  refine ⟨{ result := true
            occupancy_data := { occupancy_data with
              type := OccupancyDataType.VOXELS
              voxels := (sweepEnd (sweepOf volume_region_ collides)).voxels }
            queries := (sweepEnd (sweepOf volume_region_ collides)).queries }, ?_, ?_⟩
  · unfold fromPlanningScene
    rw [hrun]
  · simp only [sweepEnd_queries, List.length_map, length_rasterCells, ex, ey, ez]
    push_cast
    rw [Int.toNat_of_nonneg (Int.floor_nonneg.mpr hqx), Int.toNat_of_nonneg (Int.floor_nonneg.mpr hqy),
      Int.toNat_of_nonneg (Int.floor_nonneg.mpr hqz)]

/-- The query count on a volume of 2 x 1 x 2 cells of edge 1. -/
theorem fromPlanningScene_query_count_witness :
    ∃ r, fromPlanningScene 65536 { dimensions := (2, 1, 2), voxel_dimension := 1 }
        (fun _ => false)
        { type := OccupancyDataType.VOXELS, point_cloud := none, voxels := [] } = some r ∧
      (r.queries.length : Int) = ⌊(2 : ℚ) / 1⌋ * ⌊(1 : ℚ) / 1⌋ * ⌊(2 : ℚ) / 1⌋ :=
  fromPlanningScene_query_count { dimensions := (2, 1, 2), voxel_dimension := 1 }
    (fun _ => false) { type := OccupancyDataType.VOXELS, point_cloud := none, voxels := [] }
    (by norm_num) (by norm_num) (by norm_num) (by norm_num) (by norm_num) (by norm_num)
    (by norm_num) 65536 (by norm_num)

/-- C5, witness: a volume of 2 x 1 x 2 cells of edge 1, a scene that is hit exactly
when the box has moved by 2 along `z`, and an output that held the voxel
`(7, 7, 7)`: the sweep returns the cells `(0, 0, 1)` and `(1, 0, 1)`. -/
theorem fromPlanningScene_voxels_witness :
    ∃ r, fromPlanningScene 65536 { dimensions := (2, 1, 2), voxel_dimension := 1 }
        (fun t => decide (t.2.2 = 2))
        { type := OccupancyDataType.POINT_CLOUD, point_cloud := none, voxels := [Voxel.mk 7 7 7] }
          = some r ∧
      r.occupancy_data.voxels = [Voxel.mk 0 0 1, Voxel.mk 1 0 1] := by
  have hx : (sweepOf { dimensions := (2, 1, 2), voxel_dimension := 1 }
      (fun t => decide (t.2.2 = 2))).x_voxels = 2 := by norm_num [sweepOf, toInt]
  have hy : (sweepOf { dimensions := (2, 1, 2), voxel_dimension := 1 }
      (fun t => decide (t.2.2 = 2))).y_voxels = 1 := by norm_num [sweepOf, toInt]
  have hz : (sweepOf { dimensions := (2, 1, 2), voxel_dimension := 1 }
      (fun t => decide (t.2.2 = 2))).z_voxels = 2 := by norm_num [sweepOf, toInt]
  have T := fromPlanningScene_voxels { dimensions := (2, 1, 2), voxel_dimension := 1 }
    (fun t => decide (t.2.2 = 2))
    { type := OccupancyDataType.POINT_CLOUD, point_cloud := none, voxels := [Voxel.mk 7 7 7] }
  have hsome := T.2 (by rw [hx]; norm_num) (by rw [hy]; norm_num) (by rw [hz]; norm_num)
    65536 (by norm_num)
  obtain ⟨r, hr⟩ := Option.isSome_iff_exists.mp hsome
  refine ⟨r, hr, ?_⟩
  rw [(T.1 65536 r hr).2, hx, hy, hz]
  have h2 : Int.toNat 2 = 2 := rfl
  have h1 : Int.toNat 1 = 1 := rfl
  rw [h2, h1]
  norm_num [rasterCells, List.range_succ, cellTranslation, List.filter_cons]

/-! ## `prepareRoadmap` and `solve` (C2, C6, C8) -/

/-- After the first statement of `prepareRoadmap` the id is a key of `roadmaps_`. -/
theorem lookup_saveRoadmap (roadmaps_ : List (String × RoadmapSpecification))
    (roadmap_spec : RoadmapSpecification) :
    ((saveRoadmap roadmaps_ roadmap_spec).lookup roadmap_spec.roadmap_id).isSome = true := by
  unfold saveRoadmap
  cases h : List.lookup roadmap_spec.roadmap_id roadmaps_ with
  | some stored => simp [h]
  | none =>
    simp only [Option.isNone_none, if_true]
    induction roadmaps_ with
    | nil => simp [List.lookup]
    | cons entry roadmaps_ ih =>
      obtain ⟨k, v⟩ := entry
      rw [List.lookup_cons] at h
      rw [List.cons_append, List.lookup_cons]
      cases hk : roadmap_spec.roadmap_id == k with
      | true => rw [hk] at h; cases h
      | false => rw [hk] at h; exact ih h

theorem assignRoadmapIndex_loaded {σ : Type} (E : Engine σ) (self : RTRPlannerInterface σ)
    (roadmap_id : String) (files : RoadmapFiles) :
    (assignRoadmapIndex E self roadmap_id files).2.loaded_roadmap_ = self.loaded_roadmap_ := by
  unfold assignRoadmapIndex
  split
  · rfl
  · split
    · simp only []
      split <;> rfl
    · rfl

theorem assignRoadmapIndex_loads {σ : Type} (E : Engine σ) (self : RTRPlannerInterface σ)
    (roadmap_id : String) (files : RoadmapFiles) :
    (assignRoadmapIndex E self roadmap_id files).2.calls.countP EngineCall.isLoadRoadmap =
      self.calls.countP EngineCall.isLoadRoadmap := by
  unfold assignRoadmapIndex
  split
  · rfl
  · split
    · simp only []
      split <;> simp [List.countP_append, EngineCall.isLoadRoadmap]
    · rfl

theorem prepareRoadmap_loaded {σ : Type} (E : Engine σ) (self : RTRPlannerInterface σ)
    (roadmap_spec : RoadmapSpecification) :
    (prepareRoadmap E self roadmap_spec).2.loaded_roadmap_ = self.loaded_roadmap_ := by
  unfold prepareRoadmap
  simp only []
  split
  · split
    · rw [assignRoadmapIndex_loaded]
    · rfl
  · rw [assignRoadmapIndex_loaded]

theorem prepareRoadmap_loads {σ : Type} (E : Engine σ) (self : RTRPlannerInterface σ)
    (roadmap_spec : RoadmapSpecification)
    (hid : roadmap_spec.roadmap_id ≠ self.loaded_roadmap_) :
    (prepareRoadmap E self roadmap_spec).2.calls.countP EngineCall.isLoadRoadmap =
      self.calls.countP EngineCall.isLoadRoadmap + 1 := by
  unfold prepareRoadmap
  simp only []
  rw [if_pos hid]
  split
  · rw [assignRoadmapIndex_loads]
    simp [List.countP_append, EngineCall.isLoadRoadmap]
  · simp [List.countP_append, EngineCall.isLoadRoadmap]

/-- C2, the failing inputs: for every interface state, every engine and every two
specifications with the same roadmap id that differs from `loaded_roadmap_`, two
consecutive `prepareRoadmap` calls invoke `LoadRoadmap` twice: `prepareRoadmap`
compares the id with `loaded_roadmap_` and never assigns it. -/
theorem prepareRoadmap_twice_loads_twice {σ : Type} (E : Engine σ) (self : RTRPlannerInterface σ)
    (first second : RoadmapSpecification) (hsame : second.roadmap_id = first.roadmap_id)
    (hid : first.roadmap_id ≠ self.loaded_roadmap_) :
    (prepareRoadmap E (prepareRoadmap E self first).2 second).2.calls.countP
        EngineCall.isLoadRoadmap =
      self.calls.countP EngineCall.isLoadRoadmap + 2 := by
  rw [prepareRoadmap_loads E _ second (by rw [prepareRoadmap_loaded, hsame]; exact hid),
    prepareRoadmap_loads E self first hid]

/-- C2, witness: a fresh interface, a loader that succeeds, and the roadmap
`roadmap_a` prepared twice. -/
theorem prepareRoadmap_twice_loads_twice_witness :
    (prepareRoadmap (stubEngine false true [] 0)
      (prepareRoadmap (stubEngine false true [] 0) (RTRPlannerInterface.new ())
        { roadmap_id := "roadmap_a", files := { occupancy := "roadmap_a.og" } }).2
      { roadmap_id := "roadmap_a", files := { occupancy := "roadmap_a.og" } }).2.calls.countP
        EngineCall.isLoadRoadmap = 2 :=
  prepareRoadmap_twice_loads_twice (stubEngine false true [] 0) (RTRPlannerInterface.new ())
    { roadmap_id := "roadmap_a", files := { occupancy := "roadmap_a.og" } }
    { roadmap_id := "roadmap_a", files := { occupancy := "roadmap_a.og" } } rfl (by decide)

/-- The calls of that run: the same file is loaded twice. -/
theorem prepareRoadmap_twice_trace :
    (prepareRoadmap (stubEngine false true [] 0)
      (prepareRoadmap (stubEngine false true [] 0) (RTRPlannerInterface.new ())
        { roadmap_id := "roadmap_a", files := { occupancy := "roadmap_a.og" } }).2
      { roadmap_id := "roadmap_a", files := { occupancy := "roadmap_a.og" } }).2.calls =
      [EngineCall.LoadRoadmap "roadmap_a.og" true, EngineCall.LoadRoadmap "roadmap_a.og" true] := by
  decide

theorem assignRoadmapIndex_calls {σ : Type} (E : Engine σ) (self : RTRPlannerInterface σ)
    (roadmap_id : String) (files : RoadmapFiles) (base before : List EngineCall)
    (hself : self.calls = base ++ before) (hbefore : ∀ c ∈ before, c.isFindPath = false) :
    ∃ extra, (assignRoadmapIndex E self roadmap_id files).2.calls = base ++ extra ∧
      ∀ c ∈ extra, c.isFindPath = false := by
  unfold assignRoadmapIndex
  split
  · exact ⟨before, hself, hbefore⟩
  · split
    · simp only []
      split
      · refine ⟨before ++ [_], by simp only [hself, List.append_assoc]; rfl, ?_⟩
        intro c hc
        rcases List.mem_append.mp hc with h | h
        · exact hbefore c h
        · rw [List.mem_singleton.mp h]; rfl
      · refine ⟨before ++ [_], by simp only [hself, List.append_assoc]; rfl, ?_⟩
        intro c hc
        rcases List.mem_append.mp hc with h | h
        · exact hbefore c h
        · rw [List.mem_singleton.mp h]; rfl
    · exact ⟨before, hself, hbefore⟩

theorem prepareRoadmap_calls {σ : Type} (E : Engine σ) (self : RTRPlannerInterface σ)
    (roadmap_spec : RoadmapSpecification) :
    ∃ extra, (prepareRoadmap E self roadmap_spec).2.calls = self.calls ++ extra ∧
      ∀ c ∈ extra, c.isFindPath = false := by
  unfold prepareRoadmap
  simp only []
  split
  · split
    · exact assignRoadmapIndex_calls E _ _ _ self.calls [_] rfl
        (by intro c hc; rw [List.mem_singleton.mp hc]; rfl)
    · exact ⟨[_], rfl, by intro c hc; rw [List.mem_singleton.mp hc]; rfl⟩
  · exact assignRoadmapIndex_calls E _ _ _ self.calls [] (by simp) (by simp)

theorem searchPath_loaded {σ : Type} (E : Engine σ) (self : RTRPlannerInterface σ)
    (start_config : Config) (goal : RapidPlanGoal) (collisions waypoints edges : List Nat) :
    (searchPath E self start_config goal collisions waypoints edges).self.loaded_roadmap_ =
      self.loaded_roadmap_ := by
  unfold searchPath
  cases goal.type <;> rfl

theorem solve_loaded {σ : Type} (E : Engine σ) (self : RTRPlannerInterface σ)
    (roadmap_spec : RoadmapSpecification) (start_config : Config) (goal : RapidPlanGoal)
    (occupancy_voxels : List Voxel) (roadmap_states : List Config) (waypoints edges : List Nat) :
    (solve E self roadmap_spec start_config goal occupancy_voxels roadmap_states waypoints
      edges).self.loaded_roadmap_ = self.loaded_roadmap_ := by
  have hp := prepareRoadmap_loaded E self roadmap_spec
  unfold solve
  rcases hprep : prepareRoadmap E self roadmap_spec with ⟨_ | roadmap_index, self1⟩
  · rw [hprep] at hp; exact hp
  · rw [hprep] at hp
    simp only []
    split
    · split
      · rw [searchPath_loaded]; exact hp
      · exact hp
    · rw [searchPath_loaded]; exact hp

/-- The call `searchPath` makes on the planner. -/
theorem searchPath_calls {σ : Type} (E : Engine σ) (self : RTRPlannerInterface σ)
    (start_config : Config) (goal : RapidPlanGoal) (collisions waypoints edges : List Nat) :
    ∃ status : Int,
      (searchPath E self start_config goal collisions waypoints edges).success = (status == 0) ∧
      (searchPath E self start_config goal collisions waypoints edges).roadmap_states =
        E.GetConfigs (E.SetEdgeCost self.planner_) ∧
      (searchPath E self start_config goal collisions waypoints edges).self.calls =
        self.calls ++ [match goal.type with
          | GoalType.TRANSFORM =>
            EngineCall.FindPathToPose
              (findClosestConfigId start_config (E.GetConfigs (E.SetEdgeCost self.planner_)))
              (E.rtrTransformToRtrToolPose goal.transform) collisions goal.tolerance goal.weights
              status
          | GoalType.JOINT_STATE =>
            EngineCall.FindPathToIds
              (findClosestConfigId start_config (E.GetConfigs (E.SetEdgeCost self.planner_)))
              [findClosestConfigId goal.joint_state (E.GetConfigs (E.SetEdgeCost self.planner_))]
              collisions status
          | GoalType.STATE_IDS =>
            EngineCall.FindPathToIds
              (findClosestConfigId start_config (E.GetConfigs (E.SetEdgeCost self.planner_)))
              goal.state_ids collisions status] := by
  unfold searchPath
  cases hg : goal.type
  · exact ⟨_, rfl, rfl, rfl⟩
  · exact ⟨_, rfl, rfl, rfl⟩
  · exact ⟨_, rfl, rfl, rfl⟩

theorem searchPath_new_calls {σ : Type} (E : Engine σ) (self : RTRPlannerInterface σ)
    (start_config : Config) (goal : RapidPlanGoal) (collisions waypoints edges : List Nat)
    (base before : List EngineCall) (hself : self.calls = base ++ before)
    (hbefore : ∀ c ∈ before, c.isFindPath = false) :
    ∃ extra,
      (searchPath E self start_config goal collisions waypoints edges).self.calls = base ++ extra ∧
      ∀ c ∈ extra, c.isFindPath = true →
        (searchPath E self start_config goal collisions waypoints edges).success =
          (c.findPathStatus == 0) := by
  obtain ⟨status, hs, _, hc⟩ := searchPath_calls E self start_config goal collisions waypoints edges
  refine ⟨before ++ [_], by rw [hc, hself, List.append_assoc], ?_⟩
  intro c hmem hfind
  rcases List.mem_append.mp hmem with h | h
  · rw [hbefore c h] at hfind; cases hfind
  · rw [List.mem_singleton.mp h, hs]
    cases goal.type <;> rfl

theorem solve_new_calls {σ : Type} (E : Engine σ) (self : RTRPlannerInterface σ)
    (roadmap_spec : RoadmapSpecification) (start_config : Config) (goal : RapidPlanGoal)
    (occupancy_voxels : List Voxel) (roadmap_states : List Config) (waypoints edges : List Nat) :
    ∃ extra,
      (solve E self roadmap_spec start_config goal occupancy_voxels roadmap_states waypoints
        edges).self.calls = self.calls ++ extra ∧
      ∀ c ∈ extra, c.isFindPath = true →
        (solve E self roadmap_spec start_config goal occupancy_voxels roadmap_states waypoints
          edges).success = (c.findPathStatus == 0) := by
  obtain ⟨extra, h1, h2⟩ := prepareRoadmap_calls E self roadmap_spec
  unfold solve
  rcases hprep : prepareRoadmap E self roadmap_spec with ⟨_ | roadmap_index, self1⟩
  · rw [hprep] at h1
    refine ⟨extra, h1, ?_⟩
    intro c hc hfind
    rw [h2 c hc] at hfind; cases hfind
  · rw [hprep] at h1
    simp only []
    split
    · split
      · exact searchPath_new_calls E _ _ _ _ _ _ self.calls (extra ++ [_])
          (by simp only []; rw [h1, List.append_assoc])
          (by
            intro c hc
            rcases List.mem_append.mp hc with h | h
            · exact h2 c h
            · rw [List.mem_singleton.mp h]; rfl)
      · refine ⟨extra ++ [_], by simp only []; rw [h1, List.append_assoc], ?_⟩
        intro c hc hfind
        rcases List.mem_append.mp hc with h | h
        · rw [h2 c h] at hfind; cases hfind
        · rw [List.mem_singleton.mp h] at hfind; cases hfind
    · exact searchPath_new_calls E _ _ _ _ _ _ self.calls extra h1 h2

/-- C8: for every `solve` call in which `prepareRoadmap` succeeds and a `FindPath`
call made during it returns a non-zero status, `solve` returns `false`, and
`loaded_roadmap_` after the call equals its value before the call. -/
theorem solve_search_failed {σ : Type} (E : Engine σ) (self : RTRPlannerInterface σ)
    (roadmap_spec : RoadmapSpecification) (start_config : Config) (goal : RapidPlanGoal)
    (occupancy_voxels : List Voxel) (roadmap_states : List Config) (waypoints edges : List Nat)
    (_hprepared : (prepareRoadmap E self roadmap_spec).1 ≠ none)
    (hfailed : ∃ c ∈ (solve E self roadmap_spec start_config goal occupancy_voxels roadmap_states
        waypoints edges).self.calls.drop self.calls.length,
      c.isFindPath = true ∧ c.findPathStatus ≠ 0) :
    (solve E self roadmap_spec start_config goal occupancy_voxels roadmap_states waypoints
        edges).success = false ∧
    (solve E self roadmap_spec start_config goal occupancy_voxels roadmap_states waypoints
        edges).self.loaded_roadmap_ = self.loaded_roadmap_ := by
  refine ⟨?_, solve_loaded E self _ _ _ _ _ _ _⟩
  obtain ⟨extra, h1, h2⟩ := solve_new_calls E self roadmap_spec start_config goal occupancy_voxels
    roadmap_states waypoints edges
  obtain ⟨c, hc, hfind, hstatus⟩ := hfailed
  rw [h1, List.drop_left] at hc
  rw [h2 c hc hfind]
  simpa using hstatus

/-- C8, witness: a fresh interface without device whose search answers status 1. -/
theorem solve_search_failed_witness :
    (solve (stubEngine false true [[0, 0]] 1) (RTRPlannerInterface.new ())
      { roadmap_id := "roadmap_a", files := { occupancy := "roadmap_a.og" } } [0, 0]
      { type := GoalType.STATE_IDS, transform := [], tolerance := [], weights := [],
        joint_state := [], state_ids := [0] } [] [] [] []).success = false ∧
    (solve (stubEngine false true [[0, 0]] 1) (RTRPlannerInterface.new ())
      { roadmap_id := "roadmap_a", files := { occupancy := "roadmap_a.og" } } [0, 0]
      { type := GoalType.STATE_IDS, transform := [], tolerance := [], weights := [],
        joint_state := [], state_ids := [0] } [] [] [] []).self.loaded_roadmap_ =
      (RTRPlannerInterface.new ()).loaded_roadmap_ :=
  solve_search_failed (stubEngine false true [[0, 0]] 1) (RTRPlannerInterface.new ())
    { roadmap_id := "roadmap_a", files := { occupancy := "roadmap_a.og" } } [0, 0]
    { type := GoalType.STATE_IDS, transform := [], tolerance := [], weights := [],
      joint_state := [], state_ids := [0] } [] [] [] [] (by decide)
    ⟨EngineCall.FindPathToIds 0 [0] [] 1, by decide, rfl, by decide⟩

theorem find?_enumFrom (acc : List String) (n : Nat) (id : String) :
    (acc.enumFrom n).find? (fun entry => entry.2 == id) =
      if id ∈ acc then some (n + acc.indexOf id, id) else none := by
  induction acc generalizing n with
  | nil => simp
  | cons a acc ih =>
    rw [List.enumFrom_cons, List.find?_cons]
    by_cases ha : a = id
    · subst ha; simp
    · have hne : (a == id) = false := by simpa using ha
      simp only [hne, ih (n + 1)]
      by_cases hmem : id ∈ acc
      · have : ¬ id = a := fun h => ha h.symm
        simp [hmem, List.indexOf_cons_ne _ ha]
        omega
      · have : ¬ id = a := fun h => ha h.symm
        simp [hmem, this]

theorem findRoadmapIndex_enum (acc : List String) (id : String) :
    findRoadmapIndex (acc.enumFrom 0) id = if id ∈ acc then some (acc.indexOf id) else none := by
  unfold findRoadmapIndex
  rw [find?_enumFrom]
  split <;> simp

theorem mapAssign_enumFrom (acc : List String) (n : Nat) (id : String) :
    mapAssign (acc.enumFrom n) (n + acc.length) id = (acc ++ [id]).enumFrom n := by
  induction acc generalizing n with
  | nil => simp [mapAssign]
  | cons a acc ih =>
    rw [List.enumFrom_cons, mapAssign, if_neg (by simp), if_neg (by simp)]
    have : n + (a :: acc).length = (n + 1) + acc.length := by simp; omega
    rw [this, ih (n + 1)]
    simp [List.enumFrom_cons]

theorem assignRoadmapIndex_no_device {σ : Type} (E : Engine σ)
    (hE : E.RAPID_PLAN_INTERFACE_ENABLED = false) (self : RTRPlannerInterface σ)
    (roadmap_id : String) (files : RoadmapFiles) (acc : List String)
    (hidx : self.roadmap_indices_ = acc.enumFrom 0) :
    (assignRoadmapIndex E self roadmap_id files).1 =
        some (if roadmap_id ∈ acc then acc.indexOf roadmap_id else acc.length % UINT16_RANGE) ∧
    (assignRoadmapIndex E self roadmap_id files).2.roadmap_indices_ =
        if roadmap_id ∈ acc then acc.enumFrom 0
        else mapAssign (acc.enumFrom 0) (acc.length % UINT16_RANGE) roadmap_id := by
  unfold assignRoadmapIndex
  rw [hidx, findRoadmapIndex_enum]
  by_cases hmem : roadmap_id ∈ acc
  · simp [hmem, hidx]
  · simp [hmem, hE, hidx]

theorem prepareRoadmap_no_device {σ : Type} (E : Engine σ)
    (hE : E.RAPID_PLAN_INTERFACE_ENABLED = false) (self : RTRPlannerInterface σ)
    (roadmap_spec : RoadmapSpecification) (acc : List String)
    (hidx : self.roadmap_indices_ = acc.enumFrom 0) :
    ((prepareRoadmap E self roadmap_spec).1 = none ∧
      (prepareRoadmap E self roadmap_spec).2.roadmap_indices_ = acc.enumFrom 0) ∨
    ((prepareRoadmap E self roadmap_spec).1 =
        some (if roadmap_spec.roadmap_id ∈ acc then acc.indexOf roadmap_spec.roadmap_id
          else acc.length % UINT16_RANGE) ∧
      (prepareRoadmap E self roadmap_spec).2.roadmap_indices_ =
        if roadmap_spec.roadmap_id ∈ acc then acc.enumFrom 0
        else mapAssign (acc.enumFrom 0) (acc.length % UINT16_RANGE) roadmap_spec.roadmap_id) := by
  unfold prepareRoadmap
  simp only []
  split
  · split
    · right
      exact assignRoadmapIndex_no_device E hE _ _ _ acc hidx
    · left
      exact ⟨rfl, hidx⟩
  · right
    exact assignRoadmapIndex_no_device E hE _ _ _ acc hidx

theorem firstSeen_cons (seen : List String) (id : String) (ids : List String) :
    firstSeen seen (id :: ids) = firstSeen (if id ∈ seen then seen else seen ++ [id]) ids := rfl

theorem firstSeen_extends (seen ids : List String) : seen <+: firstSeen seen ids := by
  induction ids generalizing seen with
  | nil => exact List.prefix_refl _
  | cons id ids ih =>
    rw [firstSeen_cons]
    split
    · exact ih _
    · exact (List.prefix_append seen [id]).trans (ih _)

theorem indexOf_of_extends (l1 l2 : List String) (id : String) (h : l1 <+: l2) (hmem : id ∈ l1) :
    l2.indexOf id = l1.indexOf id := by
  obtain ⟨t, rfl⟩ := h
  exact List.indexOf_append_of_mem hmem

/-- The results of a successful call sequence without device, as long as the ids
fit the index type. -/
theorem prepareRoadmaps_no_device {σ : Type} (E : Engine σ)
    (hE : E.RAPID_PLAN_INTERFACE_ENABLED = false) (specs : List RoadmapSpecification) :
    ∀ (self : RTRPlannerInterface σ) (seen : List String),
      self.roadmap_indices_ = seen.enumFrom 0 →
      (firstSeen seen (specs.map (·.roadmap_id))).length ≤ UINT16_RANGE →
      (∀ r ∈ (prepareRoadmaps E self specs).1, r ≠ none) →
      (prepareRoadmaps E self specs).2.roadmap_indices_ =
          (firstSeen seen (specs.map (·.roadmap_id))).enumFrom 0 ∧
      (prepareRoadmaps E self specs).1 =
        specs.map fun spec =>
          some ((firstSeen seen (specs.map (·.roadmap_id))).indexOf spec.roadmap_id) := by
  induction specs with
  | nil => intro self seen hidx _ _; exact ⟨hidx, rfl⟩
  | cons spec specs ih =>
    intro self seen hidx hlen hok
    simp only [List.map_cons, firstSeen_cons] at hlen ⊢
    have hpre := firstSeen_extends (if spec.roadmap_id ∈ seen then seen else seen ++ [spec.roadmap_id])
      (specs.map (·.roadmap_id))
    have hfirst : (prepareRoadmap E self spec).1 ≠ none :=
      hok _ (by simp [prepareRoadmaps])
    have hrest : ∀ r ∈ (prepareRoadmaps E (prepareRoadmap E self spec).2 specs).1, r ≠ none :=
      fun r hr => hok r (by simp [prepareRoadmaps, hr])
    rcases prepareRoadmap_no_device E hE self spec seen hidx with ⟨h1, _⟩ | ⟨h1, h2⟩
    · exact absurd h1 hfirst
    · by_cases hmem : spec.roadmap_id ∈ seen
      · simp only [hmem, if_true] at h1 h2 hlen hpre ⊢
        obtain ⟨ih1, ih2⟩ := ih _ seen h2 hlen hrest
        refine ⟨by simpa [prepareRoadmaps] using ih1, ?_⟩
        simp only [prepareRoadmaps, ih2, h1, List.cons.injEq, and_true]
        rw [indexOf_of_extends _ _ _ hpre hmem]
      · simp only [hmem, if_false] at h1 h2 hlen hpre ⊢
        have hlt : seen.length < UINT16_RANGE := by
          have := hpre.length_le
          simp at this
          omega
        rw [Nat.mod_eq_of_lt hlt] at h1 h2
        have h2b : (prepareRoadmap E self spec).2.roadmap_indices_ =
            (seen ++ [spec.roadmap_id]).enumFrom 0 := by
          rw [h2]
          have := mapAssign_enumFrom seen 0 spec.roadmap_id
          simpa using this
        obtain ⟨ih1, ih2⟩ := ih _ (seen ++ [spec.roadmap_id]) h2b hlen hrest
        refine ⟨by simpa [prepareRoadmaps] using ih1, ?_⟩
        simp only [prepareRoadmaps, ih2, h1, List.cons.injEq, and_true]
        rw [indexOf_of_extends _ _ _ hpre (by simp)]
        simp [List.indexOf_append_of_not_mem hmem]

theorem firstSeen_nodup (seen ids : List String) (h : seen.Nodup) :
    (firstSeen seen ids).Nodup := by
  induction ids generalizing seen with
  | nil => exact h
  | cons id ids ih =>
    rw [firstSeen_cons]
    split
    · exact ih _ h
    · rename_i hmem
      exact ih _ (List.nodup_append.mpr ⟨h, List.nodup_singleton _, by
        intro a ha hb
        rw [List.mem_singleton.mp hb] at ha
        exact hmem ha⟩)

theorem mem_firstSeen (seen ids : List String) (id : String) (h : id ∈ seen ∨ id ∈ ids) :
    id ∈ firstSeen seen ids := by
  induction ids generalizing seen with
  | nil =>
    rcases h with h | h
    · exact h
    · cases h
  | cons a ids ih =>
    rw [firstSeen_cons]
    apply ih
    rcases h with h | h
    · left
      split
      · exact h
      · exact List.mem_append_left _ h
    · rcases List.mem_cons.mp h with rfl | h
      · left
        split
        · assumption
        · simp
      · right; exact h

theorem firstSeen_of_nodup (seen ids : List String) (h : (seen ++ ids).Nodup) :
    firstSeen seen ids = seen ++ ids := by
  induction ids generalizing seen with
  | nil => simp [firstSeen]
  | cons a ids ih =>
    have hnot : a ∉ seen := by
      intro ha
      have := List.nodup_append.mp h
      exact this.2.2 ha (List.mem_cons_self _ _)
    rw [firstSeen_cons, if_neg hnot, ih _ (by simpa using h)]
    simp

/-- C7, amended: with no device attached, for every sequence of successful
`prepareRoadmap` calls starting from an empty registry that holds at most 65536
distinct roadmap ids, the `k`-th distinct roadmap id (counting from 0) is assigned
index `k` at its first call and at every later call, and no two ids share an
index. -/
theorem prepareRoadmaps_indices {σ : Type} (E : Engine σ) (self : RTRPlannerInterface σ)
    (specs : List RoadmapSpecification)
    (hE : E.RAPID_PLAN_INTERFACE_ENABLED = false)
    (hempty : self.roadmap_indices_ = [])
    (hok : ∀ r ∈ (prepareRoadmaps E self specs).1, r ≠ none)
    (hfit : (firstSeen [] (specs.map (·.roadmap_id))).length ≤ UINT16_RANGE) :
    (∀ (k : Nat) (id : String), (firstSeen [] (specs.map (·.roadmap_id)))[k]? = some id →
      ∀ (j : Nat) (spec : RoadmapSpecification), specs[j]? = some spec → spec.roadmap_id = id →
        (prepareRoadmaps E self specs).1[j]? = some (some k)) ∧
    (∀ (i j : Nat) (a b : RoadmapSpecification), specs[i]? = some a → specs[j]? = some b →
      (prepareRoadmaps E self specs).1[i]? = (prepareRoadmaps E self specs).1[j]? →
        a.roadmap_id = b.roadmap_id) := by
  obtain ⟨_, hres⟩ := prepareRoadmaps_no_device E hE specs self [] (by simpa using hempty) hfit hok
  have hnodup := firstSeen_nodup [] (specs.map (·.roadmap_id)) List.nodup_nil
  have hmem : ∀ (j : Nat) (spec : RoadmapSpecification), specs[j]? = some spec →
      spec.roadmap_id ∈ firstSeen [] (specs.map (·.roadmap_id)) := by
    intro j spec hj
    exact mem_firstSeen _ _ _ (Or.inr (List.mem_map.mpr ⟨spec, List.getElem?_mem hj, rfl⟩))
  have hat : ∀ (j : Nat) (spec : RoadmapSpecification), specs[j]? = some spec →
      (prepareRoadmaps E self specs).1[j]? =
        some (some ((firstSeen [] (specs.map (·.roadmap_id))).indexOf spec.roadmap_id)) := by
    intro j spec hj
    rw [hres, List.getElem?_map, hj]
    rfl
  refine ⟨?_, ?_⟩
  · intro k id hk j spec hj hid
    rw [hat j spec hj, hid]
    obtain ⟨hlt, hget⟩ := List.getElem?_eq_some_iff.mp hk
    rw [← hget, List.indexOf_getElem hnodup]
  · intro i j a b hi hj heq
    rw [hat i a hi, hat j b hj] at heq
    have h := Option.some.inj (Option.some.inj heq)
    exact (List.indexOf_inj (hmem i a hi) (hmem j b hj)).mp h

/-- C7, witness: the calls for `roadmap_a`, `roadmap_b`, `roadmap_a` return 0, 1, 0. -/
theorem prepareRoadmaps_indices_witness :
    (prepareRoadmaps (stubEngine false true [] 0) (RTRPlannerInterface.new ())
      [{ roadmap_id := "roadmap_a", files := { occupancy := "a.og" } },
       { roadmap_id := "roadmap_b", files := { occupancy := "b.og" } },
       { roadmap_id := "roadmap_a", files := { occupancy := "a.og" } }]).1[2]? = some (some 0) ∧
    (prepareRoadmaps (stubEngine false true [] 0) (RTRPlannerInterface.new ())
      [{ roadmap_id := "roadmap_a", files := { occupancy := "a.og" } },
       { roadmap_id := "roadmap_b", files := { occupancy := "b.og" } },
       { roadmap_id := "roadmap_a", files := { occupancy := "a.og" } }]).1[1]? = some (some 1) :=
  ⟨(prepareRoadmaps_indices (stubEngine false true [] 0) (RTRPlannerInterface.new ())
      [{ roadmap_id := "roadmap_a", files := { occupancy := "a.og" } },
       { roadmap_id := "roadmap_b", files := { occupancy := "b.og" } },
       { roadmap_id := "roadmap_a", files := { occupancy := "a.og" } }]
      rfl rfl (by decide) (by decide)).1 0 "roadmap_a" (by decide) 2
      { roadmap_id := "roadmap_a", files := { occupancy := "a.og" } } (by decide) rfl,
    (prepareRoadmaps_indices (stubEngine false true [] 0) (RTRPlannerInterface.new ())
      [{ roadmap_id := "roadmap_a", files := { occupancy := "a.og" } },
       { roadmap_id := "roadmap_b", files := { occupancy := "b.og" } },
       { roadmap_id := "roadmap_a", files := { occupancy := "a.og" } }]
      rfl rfl (by decide) (by decide)).1 1 "roadmap_b" (by decide) 1
      { roadmap_id := "roadmap_b", files := { occupancy := "b.og" } } (by decide) rfl⟩

theorem roadmapName_injective : Function.Injective roadmapName := by
  intro a b h
  have h1 : List.replicate a 'r' = List.replicate b 'r' := congrArg String.data h
  have := congrArg List.length h1
  simpa using this

theorem manyRoadmaps_ids (n : Nat) :
    (manyRoadmaps n).map (·.roadmap_id) = (List.range n).map roadmapName := by
  simp [manyRoadmaps, Function.comp_def]

theorem manyRoadmaps_ids_nodup (n : Nat) : ((manyRoadmaps n).map (·.roadmap_id)).Nodup := by
  rw [manyRoadmaps_ids]
  exact (List.nodup_range n).map roadmapName_injective

theorem manyRoadmaps_succ (n : Nat) :
    manyRoadmaps (n + 1) = manyRoadmaps n ++
      [{ roadmap_id := roadmapName n, files := { occupancy := roadmapName n } }] := by
  simp [manyRoadmaps, List.range_succ]

theorem prepareRoadmaps_append {σ : Type} (E : Engine σ) (l1 l2 : List RoadmapSpecification) :
    ∀ self : RTRPlannerInterface σ,
      prepareRoadmaps E self (l1 ++ l2) =
        ((prepareRoadmaps E self l1).1 ++ (prepareRoadmaps E (prepareRoadmaps E self l1).2 l2).1,
          (prepareRoadmaps E (prepareRoadmaps E self l1).2 l2).2) := by
  induction l1 with
  | nil => intro self; simp [prepareRoadmaps]
  | cons spec l1 ih => intro self; simp [prepareRoadmaps, ih]

theorem prepareRoadmap_stub_ok (configs : List Config) (status : Int)
    (self : RTRPlannerInterface Unit) (roadmap_spec : RoadmapSpecification) :
    (prepareRoadmap (stubEngine false true configs status) self roadmap_spec).1 ≠ none := by
  unfold prepareRoadmap assignRoadmapIndex
  simp only [stubEngine]
  split
  · simp only [if_true]
    split <;> simp
  · split <;> simp

theorem prepareRoadmaps_stub_ok (configs : List Config) (status : Int)
    (specs : List RoadmapSpecification) :
    ∀ (self : RTRPlannerInterface Unit),
      ∀ r ∈ (prepareRoadmaps (stubEngine false true configs status) self specs).1, r ≠ none := by
  induction specs with
  | nil => intro self r hr; simp [prepareRoadmaps] at hr
  | cons spec specs ih =>
    intro self r hr
    simp only [prepareRoadmaps, List.mem_cons] at hr
    rcases hr with rfl | hr
    · exact prepareRoadmap_stub_ok _ _ _ _
    · exact ih _ r hr

/-- The first `n ≤ 65536` roadmaps of the long sequence get the indices `0 .. n - 1`. -/
theorem prepareRoadmaps_many (n : Nat) (hn : n ≤ UINT16_RANGE) :
    (prepareRoadmaps (stubEngine false true [] 0) (RTRPlannerInterface.new ())
        (manyRoadmaps n)).2.roadmap_indices_ = ((List.range n).map roadmapName).enumFrom 0 ∧
    (prepareRoadmaps (stubEngine false true [] 0) (RTRPlannerInterface.new ())
        (manyRoadmaps n)).1 =
      (manyRoadmaps n).map fun spec =>
        some (((List.range n).map roadmapName).indexOf spec.roadmap_id) := by
  have hfs : firstSeen [] ((manyRoadmaps n).map (·.roadmap_id)) = (List.range n).map roadmapName := by
    rw [firstSeen_of_nodup _ _ (by simpa using manyRoadmaps_ids_nodup n), manyRoadmaps_ids]
    simp
  have := prepareRoadmaps_no_device (stubEngine false true [] 0) rfl (manyRoadmaps n)
    (RTRPlannerInterface.new ()) [] rfl (by rw [hfs]; simpa using hn)
    (prepareRoadmaps_stub_ok _ _ _ _)
  rw [hfs] at this
  exact this

theorem length_manyRoadmaps (n : Nat) : (manyRoadmaps n).length = n := by
  simp [manyRoadmaps]

theorem getElem?_manyRoadmaps (n k : Nat) (hk : k < n) :
    (manyRoadmaps n)[k]? =
      some { roadmap_id := roadmapName k, files := { occupancy := roadmapName k } } := by
  simp [manyRoadmaps, List.getElem?_map, List.getElem?_range hk]

theorem prepareRoadmaps_wrap_at (n : Nat) (hn : n = UINT16_RANGE) :
    (prepareRoadmaps (stubEngine false true [] 0) (RTRPlannerInterface.new ())
        (manyRoadmaps (n + 1))).1[n]? = some (some 0) ∧
    (prepareRoadmaps (stubEngine false true [] 0) (RTRPlannerInterface.new ())
        (manyRoadmaps (n + 1))).1[0]? = some (some 0) := by
  have hpos : 0 < n := by rw [hn]; simp [UINT16_RANGE]
  obtain ⟨hidx, hres⟩ := prepareRoadmaps_many n (le_of_eq hn)
  have hlen1 : (prepareRoadmaps (stubEngine false true [] 0) (RTRPlannerInterface.new ())
      (manyRoadmaps n)).1.length = n := by
    rw [hres, List.length_map, length_manyRoadmaps]
  have hnodup : ((List.range n).map roadmapName).Nodup :=
    (List.nodup_range n).map roadmapName_injective
  rw [manyRoadmaps_succ, prepareRoadmaps_append]
  constructor
  · rw [List.getElem?_append_right (by rw [hlen1]), hlen1, Nat.sub_self]
    have hnot : roadmapName n ∉ (List.range n).map roadmapName := by
      intro hmem
      obtain ⟨k, hk, hkn⟩ := List.mem_map.mp hmem
      have := roadmapName_injective hkn
      rw [List.mem_range] at hk
      omega
    rcases prepareRoadmap_no_device (stubEngine false true [] 0) rfl
      (prepareRoadmaps (stubEngine false true [] 0) (RTRPlannerInterface.new ())
        (manyRoadmaps n)).2
      { roadmap_id := roadmapName n, files := { occupancy := roadmapName n } }
      ((List.range n).map roadmapName) hidx with ⟨h1, _⟩ | ⟨h1, _⟩
    · exact absurd h1 (prepareRoadmap_stub_ok _ _ _ _)
    · have hmod : ((List.range n).map roadmapName).length % UINT16_RANGE = 0 := by
        rw [List.length_map, List.length_range, hn, Nat.mod_self]
      rw [if_neg hnot, hmod] at h1
      simp only [prepareRoadmaps, List.getElem?_cons_zero, h1]
  · rw [List.getElem?_append_left (by rw [hlen1]; exact hpos), hres, List.getElem?_map,
      getElem?_manyRoadmaps n 0 hpos]
    have h0 : ((List.range n).map roadmapName)[0]? = some (roadmapName 0) := by
      rw [List.getElem?_map, List.getElem?_range hpos]; rfl
    obtain ⟨hlt, hget⟩ := List.getElem?_eq_some_iff.mp h0
    simp only [Option.map_some']
    rw [← hget, List.indexOf_getElem hnodup]

theorem firstSeen_manyRoadmaps (n : Nat) :
    firstSeen [] ((manyRoadmaps n).map (·.roadmap_id)) = (List.range n).map roadmapName := by
  rw [firstSeen_of_nodup _ _ (by simpa using manyRoadmaps_ids_nodup n), manyRoadmaps_ids]
  simp

/-- C7, counterexample: 65537 successful calls with pairwise different ids on a fresh
interface without device. The id of the last call is the 65536-th distinct id
(counting from 0); `roadmap_indices_.size()` is 65536 there and narrows to the
`uint16_t` index 0, so that call returns index 0, the index of the first id. -/
theorem prepareRoadmaps_index_wraps :
    (∀ r ∈ (prepareRoadmaps (stubEngine false true [] 0) (RTRPlannerInterface.new ())
        (manyRoadmaps 65537)).1, r ≠ none) ∧
    (firstSeen [] ((manyRoadmaps 65537).map (·.roadmap_id)))[65536]? = some (roadmapName 65536) ∧
    (manyRoadmaps 65537)[65536]? =
      some { roadmap_id := roadmapName 65536, files := { occupancy := roadmapName 65536 } } ∧
    (manyRoadmaps 65537)[0]? =
      some { roadmap_id := roadmapName 0, files := { occupancy := roadmapName 0 } } ∧
    (prepareRoadmaps (stubEngine false true [] 0) (RTRPlannerInterface.new ())
        (manyRoadmaps 65537)).1[65536]? = some (some 0) ∧
    (prepareRoadmaps (stubEngine false true [] 0) (RTRPlannerInterface.new ())
        (manyRoadmaps 65537)).1[0]? = some (some 0) ∧
    roadmapName 0 ≠ roadmapName 65536 :=
  ⟨prepareRoadmaps_stub_ok _ _ _ _,
    by rw [firstSeen_manyRoadmaps, List.getElem?_map, List.getElem?_range (by norm_num)]; rfl,
    getElem?_manyRoadmaps 65537 65536 (by norm_num),
    getElem?_manyRoadmaps 65537 0 (by norm_num),
    (prepareRoadmaps_wrap_at 65536 rfl).1,
    (prepareRoadmaps_wrap_at 65536 rfl).2,
    fun h => absurd (roadmapName_injective h) (by norm_num)⟩

/-! ## Freshness test of `fromPCL` (C10) -/

/-- Whenever the current time is at least 101 ns, its product with 1000 fits 64 bits,
and the cached stamp (read as microseconds) is not in the future, `fromPCL` asks
for a new cloud. -/
theorem fromPCL_needs_new_cloud_of_past (cloud : PointCloud) (now_nsec : Nat)
    (hnow : 101 ≤ now_nsec) (hfit : now_nsec * 1000 < UINT64_RANGE)
    (hpast : cloud.stamp * 1000 ≤ now_nsec) :
    fromPCL_needs_new_cloud (some cloud) now_nsec = true := by
  unfold fromPCL_needs_new_cloud
  simp only [decide_eq_true_eq]
  have h1 : (0 : Int) ≤ ((now_nsec * 1000 : Nat) : Int) - (cloud.stamp : Int) := by
    push_cast; omega
  have h2 : ((now_nsec * 1000 : Nat) : Int) - (cloud.stamp : Int) < (UINT64_RANGE : Int) := by
    have : ((now_nsec * 1000 : Nat) : Int) < (UINT64_RANGE : Int) := by exact_mod_cast hfit
    omega
  rw [Int.emod_eq_of_lt h1 h2]
  push_cast
  omega

/-- C10, the failing input: at current time 1 s (`toNSec() = 1000000000`) with a
cached cloud stamped 950000 microseconds (50 ms old), `fromPCL` takes the branch
that waits for a new cloud and returns the new cloud, not the cached one; the same
at the wall-clock time 1700000000 s with a cloud 50 ms old. The code multiplies
the nanoseconds by 1000 instead of dividing them by 1000. -/
theorem fromPCL_waits_with_fresh_cloud :
    (fromPCL (some { stamp := 950000, points := 1 }) 1000000000 { stamp := 1000000, points := 2 }
      { type := OccupancyDataType.VOXELS, point_cloud := none, voxels := [] }).waited = true ∧
    (fromPCL (some { stamp := 950000, points := 1 }) 1000000000 { stamp := 1000000, points := 2 }
      { type := OccupancyDataType.VOXELS, point_cloud := none, voxels := [] }).occupancy_data.point_cloud
      = some { stamp := 1000000, points := 2 } ∧
    (fromPCL (some { stamp := 1699999999950000, points := 1 }) 1700000000000000000
      { stamp := 1700000000000000, points := 2 }
      { type := OccupancyDataType.VOXELS, point_cloud := none, voxels := [] }).waited = true := by
  decide

/-! ## The solution path of the five-argument `solve` (C11) -/

theorem fillSolutionPath_eq (roadmap_states : List Config) (waypoints : List Nat) :
    ∀ (solution_path : List Config), (∀ w ∈ waypoints, w < roadmap_states.length) →
      ∃ states, fillSolutionPath roadmap_states waypoints solution_path =
          some (solution_path ++ states) ∧
        states.map some = waypoints.map (fun w => roadmap_states[w]?) := by
  induction waypoints with
  | nil => intro solution_path _; exact ⟨[], by simp [fillSolutionPath], rfl⟩
  | cons w waypoints ih =>
    intro solution_path hvalid
    have hw : w < roadmap_states.length := hvalid w (List.mem_cons_self _ _)
    obtain ⟨states, hfill, hstates⟩ := ih (solution_path ++ [roadmap_states[w]])
      (fun v hv => hvalid v (List.mem_cons_of_mem _ hv))
    refine ⟨roadmap_states[w] :: states, ?_, ?_⟩
    · rw [fillSolutionPath, List.getElem?_eq_getElem hw]
      simpa using hfill
    · simp [hstates, List.getElem?_eq_getElem hw]

/-- C11: for the `solve` overload that returns configurations: when the underlying
`solve` succeeds with waypoints `w`, each a valid index into the roadmap
configurations `configs`, the call returns `true` and the solution path afterwards
is its prior content followed by exactly `configs[w[0]], configs[w[1]], ...` in
waypoint order (same length as `w`, `i`-th entry `configs[w[i]]`); when the
underlying `solve` fails, the call returns `false` and the solution path is
unchanged. -/
theorem solveSolutionPath_path {σ : Type} (E : Engine σ) (self : RTRPlannerInterface σ)
    (roadmap_spec : RoadmapSpecification) (start_config : Config) (goal : RapidPlanGoal)
    (occupancy_voxels : List Voxel) (solution_path : List Config) :
    ((solve E self roadmap_spec start_config goal occupancy_voxels [] [] []).success = true →
      (∀ w ∈ (solve E self roadmap_spec start_config goal occupancy_voxels [] [] []).waypoints,
        w < (solve E self roadmap_spec start_config goal occupancy_voxels [] [] []
          ).roadmap_states.length) →
      ∃ states,
        solveSolutionPath E self roadmap_spec start_config goal occupancy_voxels solution_path =
          some { success := true
                 self := (solve E self roadmap_spec start_config goal occupancy_voxels
                   [] [] []).self
                 solution_path := solution_path ++ states } ∧
        states.length =
          (solve E self roadmap_spec start_config goal occupancy_voxels [] [] []).waypoints.length ∧
        states.map some =
          (solve E self roadmap_spec start_config goal occupancy_voxels [] [] []).waypoints.map
            (fun w => (solve E self roadmap_spec start_config goal occupancy_voxels
              [] [] []).roadmap_states[w]?)) ∧
    ((solve E self roadmap_spec start_config goal occupancy_voxels [] [] []).success = false →
      solveSolutionPath E self roadmap_spec start_config goal occupancy_voxels solution_path =
        some { success := false
               self := (solve E self roadmap_spec start_config goal occupancy_voxels
                 [] [] []).self
               solution_path := solution_path }) := by
  refine ⟨?_, ?_⟩
  · intro hsuccess hvalid
    obtain ⟨states, hfill, hstates⟩ := fillSolutionPath_eq _ _ solution_path hvalid
    refine ⟨states, ?_, ?_, hstates⟩
    · unfold solveSolutionPath
      simp only [hsuccess, if_true, hfill]
    · have := congrArg List.length hstates
      simpa using this
  · intro hfailed
    unfold solveSolutionPath
    simp only [hfailed]
    rfl

/-- C11, witness: a roadmap of three configurations and a solution path that held
`[9, 9]`; a search that succeeds with the waypoints 0, 2, 1 appends the three
configurations, a search that fails with status 1 leaves the path as it was. -/
theorem solveSolutionPath_path_witness :
    (solveSolutionPath (pathEngine [[0, 0], [1, 1], [5, 5]] 0 [0, 2, 1])
      (RTRPlannerInterface.new ())
      { roadmap_id := "roadmap_a", files := { occupancy := "roadmap_a.og" } } [0, 0]
      { type := GoalType.STATE_IDS, transform := [], tolerance := [], weights := [],
        joint_state := [], state_ids := [1] } [] [[9, 9]]).map (fun r => r.solution_path) =
      some [[9, 9], [0, 0], [5, 5], [1, 1]] ∧
    (solveSolutionPath (pathEngine [[0, 0], [1, 1], [5, 5]] 1 [0, 2])
      (RTRPlannerInterface.new ())
      { roadmap_id := "roadmap_a", files := { occupancy := "roadmap_a.og" } } [0, 0]
      { type := GoalType.STATE_IDS, transform := [], tolerance := [], weights := [],
        joint_state := [], state_ids := [1] } [] [[9, 9]]).map (fun r => r.solution_path) =
      some [[9, 9]] := by
  constructor
  · obtain ⟨states, hsolved, _, hstates⟩ :=
      (solveSolutionPath_path (pathEngine [[0, 0], [1, 1], [5, 5]] 0 [0, 2, 1])
        (RTRPlannerInterface.new ())
        { roadmap_id := "roadmap_a", files := { occupancy := "roadmap_a.og" } } [0, 0]
        { type := GoalType.STATE_IDS, transform := [], tolerance := [], weights := [],
          joint_state := [], state_ids := [1] } [] [[9, 9]]).1 rfl (by decide)
    have hlist : states = [[0, 0], [5, 5], [1, 1]] :=
      List.map_injective_iff.mpr (Option.some_injective _) (hstates.trans rfl)
    rw [hsolved, hlist]
    rfl
  · rw [(solveSolutionPath_path (pathEngine [[0, 0], [1, 1], [5, 5]] 1 [0, 2])
        (RTRPlannerInterface.new ())
        { roadmap_id := "roadmap_a", files := { occupancy := "roadmap_a.og" } } [0, 0]
        { type := GoalType.STATE_IDS, transform := [], tolerance := [], weights := [],
          joint_state := [], state_ids := [1] } [] [[9, 9]]).2 rfl]
    rfl

/-! ## Where the test box stands at each query (C12) -/

/-- Each `moveObject` multiplies the pose of the box by its translation from the
left. -/
theorem boxPose_moveObject (world_to_volume : Transform) (volume_region_ : RoadmapVolume)
    (t : ℚ × ℚ × ℚ) (s : SweepState) :
    boxPose world_to_volume volume_region_ (moveObject t s).moved =
      (Translation3d t).mul (boxPose world_to_volume volume_region_ s.moved) := by
  simp only [boxPose, moveObject, Transform.mul, Transform.mulRow, Translation3d,
    Transform.rotate, dot,
    Transform.mk.injEq, Prod.mk.injEq]
  refine ⟨⟨⟨?_, ?_, ?_⟩, ⟨?_, ?_, ?_⟩, ?_, ?_, ?_⟩, ?_, ?_, ?_⟩ <;> ring

/-- For a volume pose without rotation the box, moved by the translation of a
cell's query, stands at the centre of that cell. -/
theorem boxPose_cellTranslation (world_to_volume : Transform) (volume_region_ : RoadmapVolume)
    (cell : Voxel) (hlinear : world_to_volume.linear = ((1, 0, 0), (0, 1, 0), (0, 0, 1))) :
    boxPose world_to_volume volume_region_
        (cellTranslation volume_region_.voxel_dimension cell) =
      world_to_volume.mul (Translation3d (cellCentre volume_region_ cell)) := by
  simp only [boxPose, Transform.mul, Transform.mulRow, Translation3d, Transform.rotate, dot,
    hlinear,
    cellTranslation, cellCentre, box_start_position, Transform.mk.injEq, Prod.mk.injEq]
  refine ⟨⟨⟨?_, ?_, ?_⟩, ⟨?_, ?_, ?_⟩, ?_, ?_, ?_⟩, ?_, ?_, ?_⟩ <;> ring

/-- For a volume pose without rotation: whenever `fromPlanningScene` returns, its
queries are made, cell after cell in raster order, with the box moved by
`((x+1)*v, (y+1)*v, (z+1)*v)` since it was added and standing at the centre
`(-X/2 + (x+1/2)*v, -Y/2 + (y+1/2)*v, -Z/2 + (z+1/2)*v)` of the cell, as an offset
from the volume pose; and it returns when the extents fit the loop counters. -/
theorem fromPlanningScene_cell_centres (volume_region_ : RoadmapVolume)
    (collides : ℚ × ℚ × ℚ → Bool) (occupancy_data : OccupancyData)
    (world_to_volume : Transform)
    (hlinear : world_to_volume.linear = ((1, 0, 0), (0, 1, 0), (0, 0, 1))) :
    (∀ (fuel : Nat) (r : FromPlanningSceneResult),
      fromPlanningScene fuel volume_region_ collides occupancy_data = some r →
        r.queries =
          (rasterCells (sweepOf volume_region_ collides).x_voxels.toNat
            (sweepOf volume_region_ collides).y_voxels.toNat
            (sweepOf volume_region_ collides).z_voxels.toNat).map
            (cellTranslation volume_region_.voxel_dimension) ∧
        r.queries.map (boxPose world_to_volume volume_region_) =
          (rasterCells (sweepOf volume_region_ collides).x_voxels.toNat
            (sweepOf volume_region_ collides).y_voxels.toNat
            (sweepOf volume_region_ collides).z_voxels.toNat).map
            (fun cell => world_to_volume.mul (Translation3d (cellCentre volume_region_ cell)))) ∧
    ((sweepOf volume_region_ collides).x_voxels ≤ 65535 →
      (sweepOf volume_region_ collides).y_voxels ≤ 65535 →
      (sweepOf volume_region_ collides).z_voxels ≤ 65535 →
      ∀ fuel : Nat, 65535 < fuel →
        (fromPlanningScene fuel volume_region_ collides occupancy_data).isSome = true) := by
  refine ⟨?_, ?_⟩
  · intro fuel r h
    rw [fromPlanningScene_eq fuel volume_region_ collides occupancy_data r h]
    refine ⟨sweepEnd_queries _, ?_⟩
    simp only [sweepEnd_queries, List.map_map]
    refine List.map_congr_left fun cell _ => ?_
    exact boxPose_cellTranslation world_to_volume volume_region_ cell hlinear
  · intro hx hy hz fuel hfuel
    unfold fromPlanningScene
    rw [xLoop_eq_sweepEnd _ fuel hx hy hz hfuel]
    rfl

/-- The same on a volume of 2 x 1 x 2 cells of edge 1 whose pose is the translation
by `(3, 4, 5)`: four queries, the first with the box at the world point
`(3, 4, 5) + (-1/2, 0, -1/2)`. -/
theorem fromPlanningScene_cell_centres_witness :
    ∃ r, fromPlanningScene 65536 { dimensions := (2, 1, 2), voxel_dimension := 1 }
        (fun _ => false)
        { type := OccupancyDataType.VOXELS, point_cloud := none, voxels := [] } = some r ∧
      r.queries = [(1, 1, 1), (1, 1, 2), (2, 1, 1), (2, 1, 2)] ∧
      (r.queries.map (boxPose (Translation3d (3, 4, 5))
          { dimensions := (2, 1, 2), voxel_dimension := 1 })).head? =
        some ((Translation3d (3, 4, 5)).mul (Translation3d (-1 / 2, 0, -1 / 2))) := by
  have hx : (sweepOf { dimensions := (2, 1, 2), voxel_dimension := 1 }
      (fun _ => false)).x_voxels = 2 := by norm_num [sweepOf, toInt]
  have hy : (sweepOf { dimensions := (2, 1, 2), voxel_dimension := 1 }
      (fun _ => false)).y_voxels = 1 := by norm_num [sweepOf, toInt]
  have hz : (sweepOf { dimensions := (2, 1, 2), voxel_dimension := 1 }
      (fun _ => false)).z_voxels = 2 := by norm_num [sweepOf, toInt]
  have h2 : Int.toNat 2 = 2 := rfl
  have h1 : Int.toNat 1 = 1 := rfl
  have T := fromPlanningScene_cell_centres { dimensions := (2, 1, 2), voxel_dimension := 1 }
    (fun _ => false) { type := OccupancyDataType.VOXELS, point_cloud := none, voxels := [] }
    (Translation3d (3, 4, 5)) rfl
  have hsome := T.2 (by rw [hx]; norm_num) (by rw [hy]; norm_num) (by rw [hz]; norm_num)
    65536 (by norm_num)
  obtain ⟨r, hr⟩ := Option.isSome_iff_exists.mp hsome
  obtain ⟨hq, hp⟩ := T.1 65536 r hr
  rw [hx, hy, hz, h2, h1] at hq hp
  refine ⟨r, hr, ?_, ?_⟩
  · rw [hq]
    norm_num [rasterCells, List.range_succ, cellTranslation]
  · rw [hp]
    norm_num [rasterCells, List.range_succ, cellCentre]

/-- C12, the failing input: a volume of one cell of edge 1 whose pose is turned by
half a turn about the vertical axis. The one query, that of cell `(0, 0, 0)`, is
made after the cumulative translation `(1, 1, 1) = ((0+1)*v, (0+1)*v, (0+1)*v)`,
as claimed; the box was added at `world_to_volume * (-1, -1, -1)`, which is the
world point `(1, 1, -1)`, and the three steps are taken along the world axes, so
at the query it stands at `(2, 2, 0)`, while the centre of the cell, offset
`(0, 0, 0)` from the volume pose, is the world point `(0, 0, 0)`. -/
theorem fromPlanningScene_box_off_centre :
    (fromPlanningScene 65536 { dimensions := (1, 1, 1), voxel_dimension := 1 } (fun _ => false)
      { type := OccupancyDataType.VOXELS, point_cloud := none, voxels := [] }).map
        (fun r => r.queries) = some [(1, 1, 1)] ∧
    cellTranslation 1 (Voxel.mk 0 0 0) = (1, 1, 1) ∧
    cellCentre { dimensions := (1, 1, 1), voxel_dimension := 1 } (Voxel.mk 0 0 0) = (0, 0, 0) ∧
    boxPose halfTurn { dimensions := (1, 1, 1), voxel_dimension := 1 } (1, 1, 1) =
      { linear := halfTurn.linear, translation := (2, 2, 0) } ∧
    halfTurn.mul (Translation3d
        (cellCentre { dimensions := (1, 1, 1), voxel_dimension := 1 } (Voxel.mk 0 0 0))) =
      { linear := halfTurn.linear, translation := (0, 0, 0) } ∧
    boxPose halfTurn { dimensions := (1, 1, 1), voxel_dimension := 1 }
        (cellTranslation 1 (Voxel.mk 0 0 0)) ≠
      halfTurn.mul (Translation3d
        (cellCentre { dimensions := (1, 1, 1), voxel_dimension := 1 } (Voxel.mk 0 0 0))) := by
  have hx : (sweepOf { dimensions := (1, 1, 1), voxel_dimension := 1 }
      (fun _ => false)).x_voxels = 1 := by norm_num [sweepOf, toInt]
  have hy : (sweepOf { dimensions := (1, 1, 1), voxel_dimension := 1 }
      (fun _ => false)).y_voxels = 1 := by norm_num [sweepOf, toInt]
  have hz : (sweepOf { dimensions := (1, 1, 1), voxel_dimension := 1 }
      (fun _ => false)).z_voxels = 1 := by norm_num [sweepOf, toInt]
  have h1 : Int.toNat 1 = 1 := rfl
  refine ⟨?_, ?_, ?_, ?_, ?_, ?_⟩
  · unfold fromPlanningScene
    rw [xLoop_eq_sweepEnd _ 65536 (by rw [hx]; norm_num) (by rw [hy]; norm_num)
      (by rw [hz]; norm_num) (by norm_num)]
    simp only [Option.map_some', sweepEnd_queries, hx, hy, hz, h1]
    norm_num [rasterCells, List.range_succ, cellTranslation, sweepOf]
  · norm_num [cellTranslation]
  · norm_num [cellCentre]
  · norm_num [boxPose, halfTurn, Transform.mul, Transform.mulRow, Translation3d,
      Transform.rotate, dot, box_start_position]
  · norm_num [halfTurn, Transform.mul, Transform.mulRow, Translation3d, Transform.rotate, dot,
      cellCentre]
  · norm_num [boxPose, halfTurn, Transform.mul, Transform.mulRow, Translation3d,
      Transform.rotate, dot, box_start_position, cellTranslation, cellCentre]

end rtr_moveit
